import Mathlib

/-!
Verification development for the speedwaymotors browser-automation extension.

The repository's behavioural core is embedded shallowly:

* `TimingEngine` (src/unnamed/part_006): session fatigue and per-action delays,
  modelled over `ℚ` (JS numbers carry exact decimal constants here; the
  `Math.random()` draw is passed in explicitly as a rational in `[0,1)`).
* `ScenarioRunner` (src/content/scenario-runner.js): parameter resolution,
  the `runScenario` entry gate, and the step retry/error flow.  JS exceptions
  are modelled with `Except String`; the crucial point of `handleStepError`
  is that its recursive `executeStep` call sits inside the `catch` block of
  `executeScenario`, so a second failure propagates without re-entering the
  handler.
* `HumanSimulator.humanType` (src/content/human-simulator.js): the typing loop
  with mistake injection, modelled over an explicit stream of random draws.
* `NaturalMouseEngine` (src/utils/mouse.js): movement-path synthesis over `ℝ`
  (the code takes square roots of distances).
* `PageDetector` (src/content/page-detector.js): detection caching and the
  fallback produced when an internal detection error is caught.
-/

namespace Speedway

/-! ## Timing engine (src/unnamed/part_006) -/

/-- User profile attributes used by the timing engine
(`TimingEngine.generateUserProfile`).  Only the fields consumed by
`getActionDelay` / `getSessionMultiplier` are modelled. -/
structure UserProfile where
  readingWPM : ℚ
  patience : ℚ
  scrollSpeed : ℚ
  sessionLength : ℚ
deriving Repr, DecidableEq

/-- `TimingEngine.getSessionMultiplier` (src/unnamed/part_006, lines 103-111).
`sessionDuration = Date.now() - this.sessionStart`;
`sessionProgress = sessionDuration / sessionLength`;
`fatigueLevel = Math.min(1.0, sessionProgress * 0.8)`;
returns `1 + fatigueLevel * 0.5`.  The first component of the result is the
`fatigueLevel` the call stores on the engine, the second the returned
multiplier. -/
def getSessionMultiplier (sessionStart now sessionLength : ℚ) : ℚ × ℚ :=
  let sessionDuration := now - sessionStart
  let sessionProgress := sessionDuration / sessionLength
  let fatigueLevel := min 1 (sessionProgress * 0.8)
  let fatigueMultiplier := 1 + fatigueLevel * 0.5
  (fatigueLevel, fatigueMultiplier)

/-- Base `[min,max]` delay range per action kind
(`TimingEngine.getActionDelay`, `baseDelays`); an unknown action kind falls
back to the `click` range. -/
def baseDelayRange (actionType : String) : ℚ × ℚ :=
  if actionType = "hover" then (100, 500)
  else if actionType = "click" then (200, 800)
  else if actionType = "scroll" then (50, 200)
  else if actionType = "page_load" then (1500, 4000)
  else if actionType = "reading" then (1000, 5000)
  else if actionType = "typing" then (80, 200)
  else (200, 800)

/-- The delay of `TimingEngine.getActionDelay` (src/unnamed/part_006,
lines 76-101) before the final `Math.round`: a uniform draw `r ∈ [0,1)`
stretched over the base range, an action-specific multiplier (scroll is
inversely proportional to the profile's scroll speed, reading scales with
patience), and the session fatigue multiplier. -/
def getActionDelay (actionType : String) (r : ℚ) (profile : UserProfile)
    (sessionStart now : ℚ) : ℚ :=
  let range := baseDelayRange actionType
  let randomDelay := range.1 + r * (range.2 - range.1)
  let multiplier : ℚ :=
    if actionType = "scroll" then 1000 / profile.scrollSpeed
    else if actionType = "reading" then profile.patience
    else 1
  let sessionMultiplier := (getSessionMultiplier sessionStart now profile.sessionLength).2
  randomDelay * multiplier * sessionMultiplier

/-! ## Scenario runner: step retry flow (src/content/scenario-runner.js) -/

/-- Outcome of the n-th execution of a fixed step's `executeStep` call:
`none` means the attempt succeeded, `some msg` that it threw `msg`.
Parametrising by the attempt index lets one theorem quantify over steps that
always fail as well as steps that recover. -/
def StepOutcomes := Nat → Option String

/-- Result of driving one step through `executeScenario`'s try/catch:
how many times `executeStep` ran for it, the backoff sleeps performed
between executions (ms), and whether the step loop continues (`ok`) or the
error escapes and aborts the run (`error`). -/
structure StepRunResult where
  executions : Nat
  backoffs : List Nat
  outcome : Except String Unit
deriving Repr

/-- `ScenarioRunner.handleStepError` (src/content/scenario-runner.js,
lines 654-669), invoked from the `catch` block of `executeScenario` with
`step._retryCount` still unset (0).  When `currentRetries < maxRetries` it
sets `_retryCount := currentRetries + 1`, sleeps `1000 * _retryCount` ms and
calls `executeStep` again — directly, not through the try/catch — so a
failure of that call propagates out of `handleStepError` (and out of the
enclosing `catch` block) instead of being retried once more.  Otherwise it
rethrows the original error.  Returns how many extra executions happened,
the backoff sleeps, and the resulting control flow. -/
def handleStepError (outcomes : StepOutcomes) (maxRetries currentRetries : Nat)
    (err : String) : StepRunResult :=
  if currentRetries < maxRetries then
    let retryCount := currentRetries + 1
    -- sleep(1000 * step._retryCount), then `await this.executeStep(step)`
    match outcomes retryCount with
    | none => ⟨1, [1000 * retryCount], .ok ()⟩
    | some e2 => ⟨1, [1000 * retryCount], .error e2⟩
  else ⟨0, [], .error err⟩

/-- One step's passage through the body of `executeScenario`'s loop
(src/content/scenario-runner.js, lines 118-124):
`try { executeStep } catch (error) { handleStepError }`.  The initial
`executeStep` is attempt 0; on failure `handleStepError` runs with
`currentRetries = step._retryCount || 0 = 0`. -/
def runStepWithRetries (outcomes : StepOutcomes) (maxRetries : Nat) : StepRunResult :=
  match outcomes 0 with
  | none => ⟨1, [], .ok ()⟩
  | some e =>
    let h := handleStepError outcomes maxRetries 0 e
    ⟨1 + h.executions, h.backoffs, h.outcome⟩

/-- A step whose action throws on every attempt. -/
def alwaysFailing : StepOutcomes := fun _ => some "step failed"

/-! ## Scenario runner: parameters (src/content/scenario-runner.js) -/

/-- JavaScript values that occur as scenario parameters.  `undefined` is
represented at the use sites as `Option JSVal` being `none`. -/
inductive JSVal where
  | str (s : String)
  | num (q : ℚ)
  | boolean (b : Bool)
  | nullv
  | strList (xs : List String)
deriving Repr, DecidableEq

/-- JS truthiness of a defined value: `""`, `0`, `false` and `null` are
falsy; any array is truthy. -/
def JSVal.truthy : JSVal → Bool
  | .str s => !(s = "")
  | .num q => !(q = 0)
  | .boolean b => b
  | .nullv => false
  | .strList _ => true

/-- String coercion applied by JS when a `replace` callback returns a value.
Only the `str` case is exercised by the theorems below; the other cases are
a best-effort rendering of JS `String(v)`. -/
def JSVal.jsToString : JSVal → String
  | .str s => s
  | .num q => if q.den = 1 then toString q.num else toString q
  | .boolean b => if b then "true" else "false"
  | .nullv => "null"
  | .strList xs => String.intercalate "," xs

/-- One entry of a scenario's parameter schema
(`scenario.parameters[name] = {type, default, required}`), e.g.
`searchTerm: { type: 'string', default: 'racing wheels', required: true }`. -/
structure ParamConfig where
  type : String
  deflt : Option JSVal
  required : Bool
deriving Repr, DecidableEq

/-- `resolvedParameters` as built by `prepareScenario`: an insertion-ordered
object; a key present with value `none` models a property set to
`undefined` (which happens when an optional parameter has no default). -/
abbrev ResolvedParams := List (String × Option JSVal)

/-- JS property lookup `resolvedParameters[name]`: `undefined` when the key
is absent or was stored as `undefined`. -/
def lookupParam (params : ResolvedParams) (name : String) : Option JSVal :=
  (List.lookup name params).join

/-- The parameter-resolution loop of `ScenarioRunner.prepareScenario`
(src/content/scenario-runner.js, lines 687-709): for each schema entry take
the supplied value; if it is `undefined`, throw when the parameter is
required, otherwise fall back to the schema default. -/
def prepareScenario (schema : List (String × ParamConfig))
    (supplied : String → Option JSVal) : Except String ResolvedParams :=
  match schema with
  | [] => .ok []
  | (paramName, paramConfig) :: rest =>
    match supplied paramName with
    | some v =>
      (prepareScenario rest supplied).map (fun resolved => (paramName, some v) :: resolved)
    | none =>
      if paramConfig.required then
        .error ("Required parameter '" ++ paramName ++ "' not provided")
      else
        (prepareScenario rest supplied).map
          (fun resolved => (paramName, paramConfig.deflt) :: resolved)

/-- The runner state fields touched by the start of `runScenario`. -/
structure RunnerState where
  isRunning : Bool
  isPaused : Bool
  currentStep : Nat
deriving Repr, DecidableEq

/-- The entry phase of `ScenarioRunner.runScenario`
(src/content/scenario-runner.js, lines 58-76): reject when a run is active,
then `prepareScenario` — whose exception propagates before `isRunning`,
`isPaused` or `currentStep` are assigned — and only on success flip the
engine into its running configuration.  The returned state is the engine
state when step execution would begin (or when the exception escapes). -/
def runScenarioStart (st : RunnerState) (schema : List (String × ParamConfig))
    (supplied : String → Option JSVal) :
    RunnerState × Except String ResolvedParams :=
  if st.isRunning then (st, .error "Another scenario is already running")
  else
    match prepareScenario schema supplied with
    | .error e => (st, .error e)
    | .ok resolved =>
      ({ isRunning := true, isPaused := false, currentStep := 0 }, .ok resolved)

/-- Parameter schema of the built-in `product_search` scenario
(`initBuiltInScenarios`): `searchTerm` is `required: true` with default
`'racing wheels'`. -/
def productSearchParams : List (String × ParamConfig) :=
  [("searchTerm", ⟨"string", some (.str "racing wheels"), true⟩)]

/-- Parameter schema of the built-in `category_browse` scenario:
`categoryName` is optional with default `'Circle Track'`. -/
def categoryBrowseParams : List (String × ParamConfig) :=
  [("categoryName", ⟨"string", some (.str "Circle Track"), false⟩)]

/-! ## Scenario runner: `${name}` placeholder substitution -/

/-- A character matched by the regex class `\w` in
`value.replace(/\$\{(\w+)\}/g, ...)`. -/
def isWordChar (c : Char) : Bool := c.isAlphanum || c = '_'

/-- The global-regex replacement pass of `ScenarioRunner.resolveParameter`
(src/content/scenario-runner.js, lines 672-678) over the character list of a
string.  At each `${`, the regex needs a non-empty run of word characters
followed by `}`; on a match the callback returns
`this.currentScenario.resolvedParameters[paramName] || match`, i.e. the
placeholder text itself whenever the parameter is `undefined` or falsy.
When the match fails the scan resumes one character later, and replacement
text is never rescanned, as with JS `String.prototype.replace`. -/
def resolveChars (params : ResolvedParams) : List Char → List Char
  | [] => []
  | '$' :: '{' :: rest =>
    let word := rest.takeWhile isWordChar
    let rest2 := rest.dropWhile isWordChar
    if word ≠ [] ∧ rest2.head? = some '}' then
      (match lookupParam params (String.mk word) with
       | some v =>
         if v.truthy then v.jsToString.data ++ resolveChars params rest2.tail
         else '$' :: '{' :: (word ++ '}' :: resolveChars params rest2.tail)
       | none => '$' :: '{' :: (word ++ '}' :: resolveChars params rest2.tail))
    else '$' :: resolveChars params ('{' :: rest)
  | c :: cs => c :: resolveChars params cs
termination_by l => l.length
decreasing_by
  all_goals simp only [List.length_cons]
  · have hlen : (rest.dropWhile isWordChar).length ≤ rest.length :=
      (List.dropWhile_sublist _).length_le
    have htl : (rest.dropWhile isWordChar).tail.length ≤ (rest.dropWhile isWordChar).length :=
      (List.tail_sublist _).length_le
    omega
  · omega
  · omega

/-- `ScenarioRunner.resolveParameter`: non-strings are returned unchanged;
strings go through the placeholder replacement pass. -/
def resolveParameter (params : ResolvedParams) : JSVal → JSVal
  | .str s => .str (String.mk (resolveChars params s.data))
  | v => v

/-! ## Natural mouse engine (src/utils/mouse.js)

Geometry is over `ℝ` because the source takes square roots of pixel
distances.  Each `Math.random()` draw is supplied through an explicit stream
`rand : Nat → ℝ` of values in `[0,1)`, consumed left to right exactly as the
source draws them. -/

/-- A 2D point (`{x, y}` object). -/
structure Point where
  x : ℝ
  y : ℝ

/-- `NaturalMouseEngine.calculateDistance` (src/utils/mouse.js,
lines 341-345): Euclidean distance `Math.sqrt(dx*dx + dy*dy)`. -/
noncomputable def calculateDistance (point1 point2 : Point) : ℝ :=
  let dx := point2.x - point1.x
  let dy := point2.y - point1.y
  Real.sqrt (dx * dx + dy * dy)

/-- The movement profile attributes consumed by path generation and
overshoot (`generateMovementProfile`). -/
structure MovementProfile where
  baseSpeed : ℝ
  curvature : ℝ
  overshootChance : ℝ
  tremor : ℝ

/-- The `precise` profile of `generateMovementProfile`. -/
def preciseProfile : MovementProfile := ⟨0.8, 0.1, 0.05, 0.02⟩

/-- The `casual` profile of `generateMovementProfile`. -/
def casualProfile : MovementProfile := ⟨1.2, 0.25, 0.15, 0.05⟩

/-- The `quick` profile of `generateMovementProfile`. -/
def quickProfile : MovementProfile := ⟨1.8, 0.15, 0.25, 0.03⟩

/-- `NaturalMouseEngine.addTremor` (src/utils/mouse.js, lines 220-226):
independent jitter `(Math.random() - 0.5) * tremor * 10` on each axis; `r1`
and `r2` are the two draws. -/
def addTremor (tremor : ℝ) (r1 r2 : ℝ) (point : Point) : Point :=
  ⟨point.x + (r1 - 0.5) * tremor * 10, point.y + (r2 - 0.5) * tremor * 10⟩

/-- The interpolation `start + (end - start) * t` used pointwise by
`generateStraightPath`. -/
def linearPoint (start stop : Point) (t : ℝ) : Point :=
  ⟨start.x + (stop.x - start.x) * t, start.y + (stop.y - start.y) * t⟩

/-- `NaturalMouseEngine.quadraticBezier` (src/utils/mouse.js,
lines 228-238). -/
def quadraticBezier (p0 p1 p2 : Point) (t : ℝ) : Point :=
  ⟨(1 - t) ^ 2 * p0.x + 2 * (1 - t) * t * p1.x + t ^ 2 * p2.x,
   (1 - t) ^ 2 * p0.y + 2 * (1 - t) * t * p1.y + t ^ 2 * p2.y⟩

/-- `NaturalMouseEngine.cubicBezier` (src/utils/mouse.js, lines 240-252). -/
def cubicBezier (p0 p1 p2 p3 : Point) (t : ℝ) : Point :=
  ⟨(1 - t) ^ 3 * p0.x + 3 * (1 - t) ^ 2 * t * p1.x +
     3 * (1 - t) * t ^ 2 * p2.x + t ^ 3 * p3.x,
   (1 - t) ^ 3 * p0.y + 3 * (1 - t) ^ 2 * t * p1.y +
     3 * (1 - t) * t ^ 2 * p2.y + t ^ 3 * p3.y⟩

/-- `NaturalMouseEngine.generateControlPoint` (src/utils/mouse.js,
lines 193-218): a point at the given fraction along start→end, offset along
the normalised perpendicular by `distance * curvature * (0.5 + r1 * 0.5)`
with sign decided by `r2 < 0.5`. -/
noncomputable def generateControlPoint (curvature : ℝ) (r1 r2 : ℝ)
    (start stop : Point) (position : ℝ) : Point :=
  let distance := calculateDistance start stop
  let dx := stop.x - start.x
  let dy := stop.y - start.y
  let perpX := -dy
  let perpY := dx
  let perpLength := Real.sqrt (perpX * perpX + perpY * perpY)
  let normPerpX := if perpLength > 0 then perpX / perpLength else 0
  let normPerpY := if perpLength > 0 then perpY / perpLength else 0
  let maxOffset := distance * curvature
  let actualOffset := maxOffset * (0.5 + r1 * 0.5)
  let direction : ℝ := if r2 < 0.5 then 1 else -1
  let finalOffset := actualOffset * direction
  let midX := start.x + (stop.x - start.x) * position
  let midY := start.y + (stop.y - start.y) * position
  ⟨midX + normPerpX * finalOffset, midY + normPerpY * finalOffset⟩

/-- `NaturalMouseEngine.generateStraightPath` (src/utils/mouse.js,
lines 144-158): `steps = max(3, floor(distance / 15))` and `steps + 1`
linearly interpolated points, each passed through `addTremor` (the endpoints
included).  Point `i` consumes the draws `rand (2*i)` and `rand (2*i+1)`. -/
noncomputable def generateStraightPath (tremor : ℝ) (rand : Nat → ℝ)
    (start stop : Point) : List Point :=
  let steps := max 3 ⌊calculateDistance start stop / 15⌋₊
  (List.range (steps + 1)).map fun i =>
    addTremor tremor (rand (2 * i)) (rand (2 * i + 1))
      (linearPoint start stop ((i : ℝ) / (steps : ℝ)))

/-- `NaturalMouseEngine.generateCurvedPath` (src/utils/mouse.js,
lines 160-174): `steps = max(15, floor(distance / 12))`, one random control
point (draws `rand 0`, `rand 1`), then tremored quadratic-Bezier samples
(point `i` uses draws `rand (2*i+2)`, `rand (2*i+3)`). -/
noncomputable def generateCurvedPath (curvature tremor : ℝ) (rand : Nat → ℝ)
    (start stop : Point) : List Point :=
  let distance := calculateDistance start stop
  let steps := max 15 ⌊distance / 12⌋₊
  let controlPoint := generateControlPoint curvature (rand 0) (rand 1) start stop 0.5
  (List.range (steps + 1)).map fun i =>
    addTremor tremor (rand (2 * i + 2)) (rand (2 * i + 3))
      (quadraticBezier start controlPoint stop ((i : ℝ) / (steps : ℝ)))

/-- `NaturalMouseEngine.generateComplexPath` (src/utils/mouse.js,
lines 176-191): `steps = max(20, floor(distance / 10))`, two random control
points at fractions 0.3 and 0.7 (draws `rand 0..3`), then tremored
cubic-Bezier samples (point `i` uses draws `rand (2*i+4)`, `rand (2*i+5)`). -/
noncomputable def generateComplexPath (curvature tremor : ℝ) (rand : Nat → ℝ)
    (start stop : Point) : List Point :=
  let distance := calculateDistance start stop
  let steps := max 20 ⌊distance / 10⌋₊
  let control1 := generateControlPoint curvature (rand 0) (rand 1) start stop 0.3
  let control2 := generateControlPoint curvature (rand 2) (rand 3) start stop 0.7
  (List.range (steps + 1)).map fun i =>
    addTremor tremor (rand (2 * i + 4)) (rand (2 * i + 5))
      (cubicBezier start control1 control2 stop ((i : ℝ) / (steps : ℝ)))

/-- `NaturalMouseEngine.generateMovementPath` (src/utils/mouse.js,
lines 132-142): distance below 20px → straight path; above 200px → complex
(cubic) path; otherwise curved (quadratic) path. -/
noncomputable def generateMovementPath (curvature tremor : ℝ) (rand : Nat → ℝ)
    (start stop : Point) : List Point :=
  let distance := calculateDistance start stop
  if distance < 20 then generateStraightPath tremor rand start stop
  else if distance > 200 then generateComplexPath curvature tremor rand start stop
  else generateCurvedPath curvature tremor rand start stop

/-- `NaturalMouseEngine.shouldOvershoot` (src/utils/mouse.js,
lines 286-293): the draw `r` triggers an overshoot when it falls below
`min(0.3, overshootChance * min(2.0, distance / 200))`. -/
noncomputable def shouldOvershoot (profile : MovementProfile)
    (currentPosition target : Point) (r : ℝ) : Prop :=
  let distance := calculateDistance currentPosition target
  let baseChance := profile.overshootChance
  let distanceFactor := min 2.0 (distance / 200)
  let finalChance := baseChance * distanceFactor
  r < min 0.3 finalChance

/-! ## Human simulator: typing (src/content/human-simulator.js)

The typing loop of `humanType` (lines 198-246) is embedded over an explicit
stream `rand : Nat → ℚ` of `Math.random()` draws and a counter `k` giving
the position of the next draw (the `humanClick` used to focus the element
consumes draws before the loop starts, so the counter's starting value is a
parameter).  The element is an ordinary `input` whose caret stays at the end
of the value, which is how `typeCharacter` / `simulateBackspace` maintain it
via `setSelectionRange`; its value is the list of its characters. -/

/-- Observable typing effects: a character inserted into the element's value
by `typeCharacter`, or one removed by `simulateBackspace`. -/
inductive TypeEvent where
  | insert (c : Char)
  | backspace
deriving Repr, DecidableEq, BEq

/-- State threaded through the typing loop: the element's value, the emitted
events, and the index of the next `Math.random()` draw. -/
structure TypingState where
  value : List Char
  events : List TypeEvent
  k : Nat
deriving Repr, DecidableEq

/-- The keyboard string of `getRandomWrongChar`
(src/content/human-simulator.js, line 474). -/
def keyboard : List Char := "qwertyuiopasdfghjklzxcvbnm".data

/-- `HumanSimulator.getRandomWrongChar` (src/content/human-simulator.js,
lines 473-487): characters not on the keyboard string are returned as-is
(`indexOf === -1`); otherwise a horizontally adjacent key is picked with the
draw `r` (both non-early branches consume exactly one draw). -/
def getRandomWrongChar (r : ℚ) (correctChar : Char) : Char :=
  if keyboard.contains correctChar.toLower then
    let index := keyboard.indexOf correctChar.toLower
    let adjacent :=
      (if 0 < index then [keyboard.getD (index - 1) correctChar] else []) ++
      (if index < keyboard.length - 1 then [keyboard.getD (index + 1) correctChar] else [])
    if 0 < adjacent.length then
      adjacent.getD (⌊r * (adjacent.length : ℚ)⌋.toNat) correctChar
    else
      keyboard.getD (⌊r * (keyboard.length : ℚ)⌋.toNat) correctChar
  else correctChar

/-- Number of `Math.random()` draws `getRandomWrongChar` consumes for a
given character (0 on the `indexOf === -1` early return, 1 otherwise). -/
def wrongCharDraws (correctChar : Char) : Nat :=
  if keyboard.contains correctChar.toLower then 1 else 0

/-- `HumanSimulator.typeCharacter` (src/content/human-simulator.js,
lines 248-270): inserts the character at the caret (kept at the end of the
value) and dispatches the key-event sequence; consumes no draws. -/
def typeCharacter (c : Char) (st : TypingState) : TypingState :=
  { st with value := st.value ++ [c], events := st.events ++ [.insert c] }

/-- `HumanSimulator.simulateBackspace` (src/content/human-simulator.js,
lines 286-304): a no-op on an empty value, otherwise removes the character
before the caret; consumes no draws. -/
def simulateBackspace (st : TypingState) : TypingState :=
  if st.value = [] then st
  else { st with value := st.value.dropLast, events := st.events ++ [.backspace] }

/-- `HumanSimulator.simulateTypingMistake` (src/content/human-simulator.js,
lines 272-284): type an adjacent wrong character, pause
(`randomBetween(200, 800)`), backspace, pause (`randomBetween(100, 300)`),
then type the correct character.  Draws consumed: the wrong-char pick plus
the two pauses. -/
def simulateTypingMistake (rand : Nat → ℚ) (correctChar : Char)
    (st : TypingState) : TypingState :=
  let wrongChar := getRandomWrongChar (rand st.k) correctChar
  let st1 := { st with k := st.k + wrongCharDraws correctChar }
  let st2 := typeCharacter wrongChar st1
  let st3 := { st2 with k := st2.k + 1 }
  let st4 := simulateBackspace st3
  let st5 := { st4 with k := st4.k + 1 }
  typeCharacter correctChar st5

/-- The character loop of `HumanSimulator.humanType`
(src/content/human-simulator.js, lines 221-237).  For the character at
index `i`, one draw decides `Math.random() < config.mistakeRate && i > 0`;
the mistake branch runs `simulateTypingMistake` and `continue`s (skipping
the per-character delay), the normal branch types the character and draws
once more inside `getTypingDelay`'s `randomBetween`. -/
def humanTypeLoop (mistakeRate : ℚ) (rand : Nat → ℚ) :
    List Char → Nat → TypingState → TypingState
  | [], _, st => st
  | c :: cs, i, st =>
    let r := rand st.k
    let st1 := { st with k := st.k + 1 }
    if r < mistakeRate ∧ 0 < i then
      humanTypeLoop mistakeRate rand cs (i + 1) (simulateTypingMistake rand c st1)
    else
      let st2 := typeCharacter c st1
      let st3 := { st2 with k := st2.k + 1 }
      humanTypeLoop mistakeRate rand cs (i + 1) st3

/-- `HumanSimulator.humanType` on an element whose value is already empty
(so the `clearFirst` branch does nothing): run the typing loop from index 0
with the supplied effective `config.mistakeRate`.  In this source file a
caller-forced `mistakeRate` is used as given
(`options.mistakeRate || 0.02 * humanness` — no clamp; the part_003
revision additionally caps it at 0.1). -/
def humanType (mistakeRate : ℚ) (rand : Nat → ℚ) (k0 : Nat)
    (text : String) : TypingState :=
  humanTypeLoop mistakeRate rand text.data 0 ⟨[], [], k0⟩

/-- Number of backspace events in a typing run. -/
def countBackspaces (evs : List TypeEvent) : Nat :=
  evs.count .backspace

/-! ## Page detector (src/content/page-detector.js)

Detection results and the URL-keyed cache.  Timestamps are `Date.now()`
values, modelled as integers.  What `performDetection` would produce — a
full DOM scan — is a parameter: an `Except String Detection` giving either
the scan's snapshot or the internal error it threw.  The surrounding
control flow of `detectCurrentPage` (cache consultation, caching, the
try/catch producing the fallback snapshot) is embedded exactly. -/

/-- A detection snapshot (the fields of `this.currentPage` /
`getFallbackDetection` relevant to caching and fallback; `elements` maps a
logical element name to located-element metadata, abstracted to a
string). -/
structure Detection where
  url : String
  pathname : String
  type : String
  confidence : ℚ
  error : Option String
  elements : List (String × String)
  title : String
deriving Repr, DecidableEq

/-- One entry of `this.detectionCache`: the stored snapshot and the
`Date.now()` of `cacheDetection`. -/
structure CacheEntry where
  result : Detection
  timestamp : ℤ
deriving Repr, DecidableEq

/-- The detection cache: a JS `Map` from URL to entry, in insertion order
with unique keys. -/
abbrev DetectionCache := List (String × CacheEntry)

/-- JS `Map.prototype.get`: the value stored under a key, scanning entries
in order (keys are unique in a `Map`). -/
def mapGet (cache : DetectionCache) (url : String) : Option CacheEntry :=
  match cache with
  | [] => none
  | (k, v) :: rest => if k = url then some v else mapGet rest url

/-- `PageDetector.getCachedDetection` (src/content/page-detector.js,
lines 958-968): the entry for the current URL, provided
`Date.now() - cached.timestamp < cacheTimeout` (the source then tags the
returned copy with `fromCache: true`; that flag is the boolean
`detectCurrentPage` returns alongside the snapshot here). -/
def getCachedDetection (cache : DetectionCache) (url : String)
    (now cacheTimeout : ℤ) : Option Detection :=
  match mapGet cache url with
  | some cached => if now - cached.timestamp < cacheTimeout then some cached.result else none
  | none => none

/-- JS `Map.prototype.set`: overwrite in place when the key exists,
otherwise append. -/
def mapSet (cache : DetectionCache) (url : String) (entry : CacheEntry) :
    DetectionCache :=
  if (mapGet cache url).isSome then
    cache.map fun p => if p.1 = url then (url, entry) else p
  else cache ++ [(url, entry)]

/-- `PageDetector.cleanupCache` (src/content/page-detector.js,
lines 981-1001): drop entries older than `cacheTimeout`; if more than 50
remain, sort by timestamp and evict the oldest half (the loop
`i < entries.length / 2` runs `⌈n/2⌉` times). -/
def cleanupCache (cache : DetectionCache) (now maxAge : ℤ) : DetectionCache :=
  let c1 := cache.filter fun p => !(now - p.2.timestamp > maxAge)
  if 50 < c1.length then
    let entries := c1.mergeSort fun a b => a.2.timestamp ≤ b.2.timestamp
    let removed := (entries.take ((c1.length + 1) / 2)).map Prod.fst
    c1.filter fun p => !(removed.contains p.1)
  else c1

/-- `PageDetector.cacheDetection` (src/content/page-detector.js,
lines 970-979): store the snapshot under the current URL with the current
time, then prune the cache. -/
def cacheDetection (cache : DetectionCache) (url : String) (now : ℤ)
    (cacheTimeout : ℤ) (result : Detection) : DetectionCache :=
  cleanupCache (mapSet cache url ⟨result, now⟩) now cacheTimeout

/-- `PageDetector.getFallbackDetection` (src/content/page-detector.js,
lines 1026-1038): a minimal snapshot with only URL/title-level information,
type `"unknown"`, confidence 0, the error message recorded, and an empty
element map. -/
def getFallbackDetection (url pathname title : String) (errorMsg : String) :
    Detection :=
  { url := url
    pathname := pathname
    type := "unknown"
    confidence := 0
    error := some errorMsg
    elements := []
    title := title }

/-- `PageDetector.detectCurrentPage` (src/content/page-detector.js,
lines 62-105).  The `try` body consults the cache, runs the scan on a miss
and caches a successful result; the `catch` converts any error into
`getFallbackDetection`.  Returns the snapshot, the cache afterwards, and
whether the detection scan was invoked (false exactly on a cache hit).
An `.error` result would be the call throwing to its caller. -/
def detectCurrentPage (cache : DetectionCache) (url pathname title : String)
    (now cacheTimeout : ℤ) (performDetection : Except String Detection) :
    Except String (Detection × DetectionCache × Bool) :=
  let body : Except String (Detection × DetectionCache × Bool) :=
    match getCachedDetection cache url now cacheTimeout with
    | some cached => .ok (cached, cache, false)
    | none =>
      match performDetection with
      | .ok result => .ok (result, cacheDetection cache url now cacheTimeout result, true)
      | .error e => .error e
  match body with
  | .ok x => .ok x
  | .error e => .ok (getFallbackDetection url pathname title e, cache, true)

/-- Delay of `getActionDelay` before the session multiplier is applied: the
uniform draw over the base range times the action-specific multiplier. -/
def baseActionDelay (actionType : String) (r : ℚ) (profile : UserProfile) : ℚ :=
  let range := baseDelayRange actionType
  let randomDelay := range.1 + r * (range.2 - range.1)
  let multiplier : ℚ :=
    if actionType = "scroll" then 1000 / profile.scrollSpeed
    else if actionType = "reading" then profile.patience
    else 1
  randomDelay * multiplier

/-! ## Theorems -/

/-- C1: with the global default `retryAttempts = 3` and a step whose action
throws on every attempt, `executeScenario`'s try/catch plus
`handleStepError` execute the step exactly 2 times — not N+1 = 4 — with a
single 1000 ms backoff: the retry that `handleStepError` launches runs
inside the `catch` block, so its failure propagates at once and aborts the
run instead of triggering further retries. -/
theorem retryExhaustion_two_executions :
    runStepWithRetries alwaysFailing 3 =
      ⟨2, [1000], .error "step failed"⟩ ∧
    (runStepWithRetries alwaysFailing 3).executions ≠ 3 + 1 := by
  constructor
  · rfl
  · intro h
    simp [runStepWithRetries, alwaysFailing, handleStepError] at h

/-- Helper: the per-attempt backoff, had more retries been reachable, grows
linearly (`sleep(1000 * step._retryCount)`), and a step whose `k`-th retry
is reached sleeps `1000 * k`. -/
theorem handleStepError_backoff (outcomes : StepOutcomes) (maxRetries currentRetries : Nat)
    (err : String) (h : currentRetries < maxRetries) :
    (handleStepError outcomes maxRetries currentRetries err).backoffs =
      [1000 * (currentRetries + 1)] := by
  unfold handleStepError
  rw [if_pos h]
  cases h2 : outcomes (currentRetries + 1) <;> simp [h2]

/-- Witness for `handleStepError_backoff` at `currentRetries = 0`,
`maxRetries = 3`. -/
theorem handleStepError_backoff_witness :
    (0 : Nat) < 3 ∧ (handleStepError alwaysFailing 3 0 "e").backoffs = [1000 * (0 + 1)] :=
  ⟨by decide, handleStepError_backoff alwaysFailing 3 0 "e" (by decide)⟩

/-- C3 counterexample: at the moment the elapsed session time equals the
persona's target session length (here both 600000 ms), the fatigue level
the code computes is `0.8`, not the claimed elapsed ÷ target ratio capped at
1 (which would be 1). -/
theorem fatigue_not_elapsed_ratio :
    (getSessionMultiplier 0 600000 600000).1 ≠ min 1 ((600000 - 0 : ℚ) / 600000) := by
  norm_num [getSessionMultiplier]

/-- C3 (amended): the fatigue level is `min 1 (0.8 × elapsed ÷ target)` —
linear in elapsed session time with slope 0.8/target, capped at 1.0 — and
the session multiplier `1 + 0.5 × fatigue` always lies in `[1.0, 1.5]`, so
`getActionDelay` scales its pre-fatigue delay by at most 50%. -/
theorem getSessionMultiplier_bounds (actionType : String) (r : ℚ)
    (profile : UserProfile) (sessionStart now : ℚ)
    (h0 : sessionStart ≤ now) (hL : 0 < profile.sessionLength) (hr : 0 ≤ r)
    (hss : 0 < profile.scrollSpeed) (hp : 0 ≤ profile.patience) :
    (getSessionMultiplier sessionStart now profile.sessionLength).1 =
      min 1 ((now - sessionStart) / profile.sessionLength * 0.8) ∧
    1 ≤ (getSessionMultiplier sessionStart now profile.sessionLength).2 ∧
    (getSessionMultiplier sessionStart now profile.sessionLength).2 ≤ 3 / 2 ∧
    baseActionDelay actionType r profile ≤
      getActionDelay actionType r profile sessionStart now ∧
    getActionDelay actionType r profile sessionStart now ≤
      3 / 2 * baseActionDelay actionType r profile := by
  have hprog : 0 ≤ (now - sessionStart) / profile.sessionLength :=
    div_nonneg (by linarith) hL.le
  have hf0 : 0 ≤ (getSessionMultiplier sessionStart now profile.sessionLength).1 := by
    simp only [getSessionMultiplier]
    exact le_min (by norm_num) (by nlinarith)
  have hf1 : (getSessionMultiplier sessionStart now profile.sessionLength).1 ≤ 1 := by
    simp only [getSessionMultiplier]
    exact min_le_left _ _
  have hm1 : 1 ≤ (getSessionMultiplier sessionStart now profile.sessionLength).2 := by
    simp only [getSessionMultiplier] at hf0 ⊢
    nlinarith
  have hm2 : (getSessionMultiplier sessionStart now profile.sessionLength).2 ≤ 3 / 2 := by
    simp only [getSessionMultiplier] at hf1 ⊢
    nlinarith
  have hrange : 0 ≤ (baseDelayRange actionType).1 ∧
      (baseDelayRange actionType).1 ≤ (baseDelayRange actionType).2 := by
    unfold baseDelayRange
    split_ifs <;> norm_num
  have hbase : 0 ≤ baseActionDelay actionType r profile := by
    unfold baseActionDelay
    have hrd : 0 ≤ (baseDelayRange actionType).1 +
        r * ((baseDelayRange actionType).2 - (baseDelayRange actionType).1) := by
      nlinarith [hrange.1, hrange.2]
    have hmul : (0:ℚ) ≤ (if actionType = "scroll" then 1000 / profile.scrollSpeed
        else if actionType = "reading" then profile.patience else 1) := by
      split_ifs
      · positivity
      · exact hp
      · norm_num
    exact mul_nonneg hrd hmul
  have heq : getActionDelay actionType r profile sessionStart now =
      baseActionDelay actionType r profile *
        (getSessionMultiplier sessionStart now profile.sessionLength).2 := rfl
  refine ⟨rfl, hm1, hm2, ?_, ?_⟩
  · rw [heq]
    nlinarith
  · rw [heq]
    nlinarith

/-- Witness for `getSessionMultiplier_bounds`: a `click` delay halfway into
a 10-minute session for a profile with patience 1 and scroll speed 300. -/
theorem getSessionMultiplier_bounds_witness :
    (0 : ℚ) ≤ 300000 ∧
    ((getSessionMultiplier 0 300000 (⟨200, 1, 300, 600000⟩ : UserProfile).sessionLength).1 =
      min 1 ((300000 - 0) / (⟨200, 1, 300, 600000⟩ : UserProfile).sessionLength * 0.8) ∧
    1 ≤ (getSessionMultiplier 0 300000 (⟨200, 1, 300, 600000⟩ : UserProfile).sessionLength).2 ∧
    (getSessionMultiplier 0 300000 (⟨200, 1, 300, 600000⟩ : UserProfile).sessionLength).2 ≤ 3 / 2 ∧
    baseActionDelay "click" 0 ⟨200, 1, 300, 600000⟩ ≤
      getActionDelay "click" 0 ⟨200, 1, 300, 600000⟩ 0 300000 ∧
    getActionDelay "click" 0 ⟨200, 1, 300, 600000⟩ 0 300000 ≤
      3 / 2 * baseActionDelay "click" 0 ⟨200, 1, 300, 600000⟩) :=
  ⟨by norm_num,
   getSessionMultiplier_bounds "click" 0 ⟨200, 1, 300, 600000⟩ 0 300000
     (by norm_num) (by norm_num) (by norm_num) (by norm_num) (by norm_num)⟩

/-- Helper: `prepareScenario` throws when some schema entry is required and
the caller supplied no value for it. -/
theorem prepareScenario_required_missing (schema : List (String × ParamConfig))
    (supplied : String → Option JSVal)
    (h : ∃ p ∈ schema, p.2.required = true ∧ supplied p.1 = none) :
    ∃ e, prepareScenario schema supplied = .error e := by
  induction schema with
  | nil => obtain ⟨p, hp, -⟩ := h; cases hp
  | cons hd tl ih =>
    obtain ⟨n, c⟩ := hd
    obtain ⟨p, hp, hreq, hsup⟩ := h
    rcases List.mem_cons.1 hp with rfl | hptl
    · rw [prepareScenario, hsup, if_pos hreq]
      exact ⟨_, rfl⟩
    · have htl : ∃ e, prepareScenario tl supplied = .error e := ih ⟨p, hptl, hreq, hsup⟩
      obtain ⟨e, he⟩ := htl
      rw [prepareScenario]
      cases hs : supplied n with
      | some v => rw [he]; exact ⟨e, rfl⟩
      | none =>
        by_cases hc : c.required
        · rw [if_pos hc]; exact ⟨_, rfl⟩
        · rw [if_neg hc, he]; exact ⟨e, rfl⟩

/-- Helper: with only optional parameters and nothing supplied,
`prepareScenario` resolves every parameter to its schema default. -/
theorem prepareScenario_all_defaults (schema : List (String × ParamConfig))
    (h : ∀ p ∈ schema, p.2.required = false) :
    prepareScenario schema (fun _ => none) =
      .ok (schema.map fun p => (p.1, p.2.deflt)) := by
  induction schema with
  | nil => rfl
  | cons hd tl ih =>
    obtain ⟨n, c⟩ := hd
    have hreq : c.required = false := h (n, c) (List.mem_cons_self _ _)
    have ih' := ih fun p hp => h p (List.mem_cons_of_mem _ hp)
    rw [prepareScenario]
    simp [hreq, ih', Except.map]

/-- C9: when the engine is idle, a scenario declaring a required parameter
with no supplied value makes `runScenario` throw during `prepareScenario`,
before `isRunning` is set or any step executes, leaving the state exactly
as it was (idle); and a scenario whose parameters are all optional with
defaults starts running with every parameter resolved to its default. -/
theorem runScenario_param_validation (st : RunnerState)
    (schema : List (String × ParamConfig)) (supplied : String → Option JSVal)
    (hidle : st.isRunning = false)
    (hmiss : ∃ p ∈ schema, p.2.required = true ∧ supplied p.1 = none)
    (schema2 : List (String × ParamConfig))
    (hopt : ∀ p ∈ schema2, p.2.required = false) :
    (∃ e, runScenarioStart st schema supplied = (st, .error e)) ∧
    runScenarioStart st schema2 (fun _ => none) =
      ({ isRunning := true, isPaused := false, currentStep := 0 },
        .ok (schema2.map fun p => (p.1, p.2.deflt))) := by
  constructor
  · obtain ⟨e, he⟩ := prepareScenario_required_missing schema supplied hmiss
    refine ⟨e, ?_⟩
    rw [runScenarioStart, if_neg (by rw [hidle]; exact Bool.false_ne_true), he]
  · rw [runScenarioStart, if_neg (by rw [hidle]; exact Bool.false_ne_true),
      prepareScenario_all_defaults schema2 hopt]

/-- Witness for `runScenario_param_validation`: the built-in
`product_search` schema (required `searchTerm`) with nothing supplied
throws and leaves the engine idle; the built-in `category_browse` schema
(optional `categoryName`) runs with the default `'Circle Track'`. -/
theorem runScenario_param_validation_witness :
    (⟨false, false, 0⟩ : RunnerState).isRunning = false ∧
    ((∃ e, runScenarioStart ⟨false, false, 0⟩ productSearchParams (fun _ => none) =
        (⟨false, false, 0⟩, .error e)) ∧
      runScenarioStart ⟨false, false, 0⟩ categoryBrowseParams (fun _ => none) =
        ({ isRunning := true, isPaused := false, currentStep := 0 },
          .ok (categoryBrowseParams.map fun p => (p.1, p.2.deflt)))) :=
  ⟨rfl,
   runScenario_param_validation ⟨false, false, 0⟩ productSearchParams (fun _ => none) rfl
     ⟨("searchTerm", ⟨"string", some (.str "racing wheels"), true⟩),
       by simp [productSearchParams], rfl, rfl⟩
     categoryBrowseParams
     (by intro p hp
         simp only [categoryBrowseParams, List.mem_singleton] at hp
         subst hp
         rfl)⟩

/-- Helper: `takeWhile`/`dropWhile` on a word followed by a non-word
character split exactly at that character. -/
theorem takeWhile_dropWhile_word (xs : List Char) (y : Char) (ys : List Char)
    (hxs : ∀ x ∈ xs, isWordChar x = true) (hy : isWordChar y = false) :
    (xs ++ y :: ys).takeWhile isWordChar = xs ∧
    (xs ++ y :: ys).dropWhile isWordChar = y :: ys := by
  induction xs with
  | nil => simp [List.takeWhile_cons, List.dropWhile_cons, hy]
  | cons a as ih =>
    have ha : isWordChar a = true := hxs a (List.mem_cons_self _ _)
    have ih' := ih fun x hx => hxs x (List.mem_cons_of_mem _ hx)
    simp [List.takeWhile_cons, List.dropWhile_cons, ha, ih'.1, ih'.2]

/-- C10: at a `${name}` placeholder whose parameter is absent from the
resolved-parameter map or resolves to a falsy value (`0`, `""`, `false`,
`null` or a key stored as `undefined`), the replacement pass emits the
placeholder text literally unchanged and scans on after it; and
`resolveParameter` returns every non-string value unchanged. -/
theorem resolveParameter_falsy_keeps_placeholder (params : ResolvedParams)
    (name rest : List Char) (hne : name ≠ [])
    (hword : ∀ c ∈ name, isWordChar c = true)
    (hfalsy : ∀ v, lookupParam params (String.mk name) = some v → v.truthy = false) :
    resolveChars params ('$' :: '{' :: (name ++ '}' :: rest)) =
      '$' :: '{' :: (name ++ '}' :: resolveChars params rest) ∧
    ∀ v : JSVal, (∀ s, v ≠ JSVal.str s) → resolveParameter params v = v := by
  constructor
  · have hsplit := takeWhile_dropWhile_word name '}' rest hword (by decide)
    rw [resolveChars]
    rw [hsplit.1, hsplit.2]
    rw [if_pos ⟨hne, rfl⟩]
    cases hlk : lookupParam params (String.mk name) with
    | none => simp
    | some v => simp [hfalsy v hlk]
  · intro v hv
    cases v with
    | str s => exact absurd rfl (hv s)
    | num q => rfl
    | boolean b => rfl
    | nullv => rfl
    | strList xs => rfl

/-- Witness for `resolveParameter_falsy_keeps_placeholder`: the template
`"${searchTerm}"` when `searchTerm` resolved to the empty string (falsy) —
the placeholder survives verbatim — and the number 1 passes through
`resolveParameter` untouched. -/
theorem resolveParameter_falsy_keeps_placeholder_witness :
    ("searchTerm".data ≠ ([] : List Char)) ∧
    (resolveChars [("searchTerm", some (.str ""))]
        ('$' :: '{' :: ("searchTerm".data ++ '}' :: [])) =
      '$' :: '{' :: ("searchTerm".data ++ '}' ::
        resolveChars [("searchTerm", some (.str ""))] []) ∧
    ∀ v : JSVal, (∀ s, v ≠ JSVal.str s) →
      resolveParameter [("searchTerm", some (.str ""))] v = v) :=
  ⟨by decide,
   resolveParameter_falsy_keeps_placeholder [("searchTerm", some (.str ""))]
     "searchTerm".data [] (by decide) (by decide)
     (by intro v h
         rw [show lookupParam [("searchTerm", some (JSVal.str ""))] (String.mk "searchTerm".data) =
             some (JSVal.str "") from rfl] at h
         cases h
         rfl)⟩

/-- Helper: for any draw in `[0,1)`, the wrong character typed in place of
`'b'` is one of its keyboard-row neighbours `'v'`/`'n'`. -/
theorem getRandomWrongChar_b (r : ℚ) (h0 : 0 ≤ r) (h1 : r < 1) :
    getRandomWrongChar r 'b' = 'v' ∨ getRandomWrongChar r 'b' = 'n' := by
  have h2 : (0 : ℚ) ≤ r * 2 := by positivity
  have h3 : r * 2 < 2 := by linarith
  have hf0 : 0 ≤ ⌊r * 2⌋ := Int.floor_nonneg.2 h2
  have hf2 : ⌊r * 2⌋ < 2 := Int.floor_lt.2 (by exact_mod_cast h3)
  have hred : getRandomWrongChar r 'b' = List.getD ['v', 'n'] (⌊r * 2⌋.toNat) 'b' := by
    simp [getRandomWrongChar, keyboard]
  have h01 : ⌊r * 2⌋.toNat = 0 ∨ ⌊r * 2⌋.toNat = 1 := by omega
  rcases h01 with h | h <;> rw [hred, h] <;> simp

/-- Helper: the typing loop on `"ab"` with `mistakeRate = 1`: the first
character is typed plainly (the mistake branch needs `i > 0`), the second
always goes through the wrong-char/backspace/correct sequence. -/
theorem humanType_ab (rand : Nat → ℚ) (k0 : Nat) (hr : rand (k0 + 2) < 1) :
    humanType 1 rand k0 "ab" =
      { value := ['a', 'b']
        events := [.insert 'a', .insert (getRandomWrongChar (rand (k0 + 3)) 'b'),
                   .backspace, .insert 'b']
        k := k0 + 6 } := by
  have hdata : "ab".data = ['a', 'b'] := rfl
  rw [humanType, hdata]
  rw [humanTypeLoop]
  rw [if_neg (by simp)]
  rw [humanTypeLoop]
  rw [if_pos ⟨hr, Nat.zero_lt_one⟩]
  rw [humanTypeLoop]
  have hw : wrongCharDraws 'b' = 1 := by decide
  simp only [simulateTypingMistake, hw, typeCharacter, simulateBackspace]
  rw [if_neg (by simp)]
  simp only [TypingState.mk.injEq]
  exact ⟨rfl, rfl, trivial⟩

/-- C2 counterexample: calling `humanType` with `mistakeRate` forced to 1.0
on the single-character text `"a"` performs no wrong-character insertion
and no backspace — the mistake branch requires the character index to be
positive, so the first (and only) character is typed plainly.  The claimed
wrong-insert/backspace/correct-insert sequence does not occur, although the
final value is `"a"`. -/
theorem humanType_single_char_no_mistake :
    (humanType 1 (fun _ => 0) 0 "a").events = [.insert 'a'] ∧
    (humanType 1 (fun _ => 0) 0 "a").value = ['a'] ∧
    countBackspaces (humanType 1 (fun _ => 0) 0 "a").events ≠ 1 := by
  refine ⟨by rfl, by rfl, ?_⟩
  decide

/-- C2 (amended): the mistake branch of `humanType` fires only at character
indexes above 0, so with `mistakeRate = 1.0` typing `"a"` performs exactly
one correct insertion and nothing else, final value `"a"`; from the second
character on the self-correction sequence always runs: typing `"ab"` emits
exactly one wrong-character insertion (an adjacent key, never `'b'`
itself), one backspace, and the two correct insertions, final value
`"ab"`. -/
theorem humanType_mistake_sequence (rand : Nat → ℚ) (k0 : Nat)
    (hrand : ∀ n, 0 ≤ rand n ∧ rand n < 1) :
    ((humanType 1 rand k0 "a").events = [.insert 'a'] ∧
      (humanType 1 rand k0 "a").value = ['a']) ∧
    ∃ w, w ≠ 'b' ∧
      (humanType 1 rand k0 "ab").events =
        [.insert 'a', .insert w, .backspace, .insert 'b'] ∧
      (humanType 1 rand k0 "ab").value = ['a', 'b'] := by
  constructor
  · have hdata : "a".data = ['a'] := rfl
    rw [humanType, hdata, humanTypeLoop, if_neg (by simp), humanTypeLoop]
    exact ⟨rfl, rfl⟩
  · refine ⟨getRandomWrongChar (rand (k0 + 3)) 'b', ?_, ?_, ?_⟩
    · rcases getRandomWrongChar_b (rand (k0 + 3)) (hrand _).1 (hrand _).2 with h | h <;>
        rw [h] <;> decide
    · rw [humanType_ab rand k0 (hrand _).2]
    · rw [humanType_ab rand k0 (hrand _).2]

/-- Witness for `humanType_mistake_sequence` with the all-zero draw
stream. -/
theorem humanType_mistake_sequence_witness :
    (∀ _n : Nat, (0 : ℚ) ≤ 0 ∧ (0 : ℚ) < 1) ∧
    (((humanType 1 (fun _ => 0) 0 "a").events = [.insert 'a'] ∧
      (humanType 1 (fun _ => 0) 0 "a").value = ['a']) ∧
    ∃ w, w ≠ 'b' ∧
      (humanType 1 (fun _ => 0) 0 "ab").events =
        [.insert 'a', .insert w, .backspace, .insert 'b'] ∧
      (humanType 1 (fun _ => 0) 0 "ab").value = ['a', 'b']) :=
  ⟨fun _ => ⟨le_refl 0, by norm_num⟩,
   humanType_mistake_sequence (fun _ => 0) 0 (fun _ => ⟨le_refl 0, by norm_num⟩)⟩

/-- C7: `detectCurrentPage` never throws to its caller — for every outcome
of the internal scan the result is `.ok` — and when the cache misses and
the scan throws, the returned snapshot is exactly `getFallbackDetection`:
type `"unknown"`, confidence 0, the error message recorded, an empty
element map, only URL/title-level fields populated. -/
theorem detectCurrentPage_never_throws (cache : DetectionCache)
    (url pathname title : String) (now cacheTimeout : ℤ) (e : String)
    (hmiss : getCachedDetection cache url now cacheTimeout = none) :
    detectCurrentPage cache url pathname title now cacheTimeout (.error e) =
      .ok (getFallbackDetection url pathname title e, cache, true) ∧
    (getFallbackDetection url pathname title e).type = "unknown" ∧
    (getFallbackDetection url pathname title e).confidence = 0 ∧
    (getFallbackDetection url pathname title e).error = some e ∧
    (getFallbackDetection url pathname title e).elements = [] ∧
    ∀ performDetection : Except String Detection,
      ∃ out, detectCurrentPage cache url pathname title now cacheTimeout
          performDetection = .ok out := by
  refine ⟨?_, rfl, rfl, rfl, rfl, ?_⟩
  · simp only [detectCurrentPage, hmiss]
  · intro performDetection
    cases hc : getCachedDetection cache url now cacheTimeout with
    | some cached => exact ⟨(cached, cache, false), by simp only [detectCurrentPage, hc]⟩
    | none =>
      cases performDetection with
      | ok result =>
        exact ⟨(result, cacheDetection cache url now cacheTimeout result, true),
          by simp only [detectCurrentPage, hc]⟩
      | error e2 =>
        exact ⟨(getFallbackDetection url pathname title e2, cache, true),
          by simp only [detectCurrentPage, hc]⟩

/-- Witness for `detectCurrentPage_never_throws`: an empty cache and a scan
that throws `"boom"`. -/
theorem detectCurrentPage_never_throws_witness :
    getCachedDetection [] "https://www.speedwaymotors.com/" 0 30000 = none ∧
    (detectCurrentPage [] "https://www.speedwaymotors.com/" "/" "Speedway Motors" 0 30000
        (.error "boom") =
      .ok (getFallbackDetection "https://www.speedwaymotors.com/" "/" "Speedway Motors" "boom",
        [], true) ∧
    (getFallbackDetection "https://www.speedwaymotors.com/" "/" "Speedway Motors" "boom").type =
      "unknown" ∧
    (getFallbackDetection "https://www.speedwaymotors.com/" "/" "Speedway Motors" "boom").confidence =
      0 ∧
    (getFallbackDetection "https://www.speedwaymotors.com/" "/" "Speedway Motors" "boom").error =
      some "boom" ∧
    (getFallbackDetection "https://www.speedwaymotors.com/" "/" "Speedway Motors" "boom").elements =
      [] ∧
    ∀ performDetection : Except String Detection,
      ∃ out, detectCurrentPage [] "https://www.speedwaymotors.com/" "/" "Speedway Motors" 0 30000
          performDetection = .ok out) :=
  ⟨rfl,
   detectCurrentPage_never_throws [] "https://www.speedwaymotors.com/" "/" "Speedway Motors"
     0 30000 "boom" rfl⟩

/-- Helper: `mapGet` after `mapSet` finds the entry just stored. -/
theorem mapGet_mapSet_self (cache : DetectionCache) (url : String) (entry : CacheEntry) :
    mapGet (mapSet cache url entry) url = some entry := by
  unfold mapSet
  by_cases h : (mapGet cache url).isSome
  · rw [if_pos h]
    induction cache with
    | nil => simp [mapGet] at h
    | cons hd tl ih =>
      obtain ⟨k, v⟩ := hd
      by_cases hk : k = url
      · subst hk
        rw [List.map_cons, if_pos (show (k, v).1 = k from rfl), mapGet, if_pos rfl]
      · rw [mapGet, if_neg hk] at h
        rw [List.map_cons, if_neg (show ¬(k, v).1 = url from hk), mapGet, if_neg hk]
        exact ih h
  · rw [if_neg h]
    induction cache with
    | nil => simp [mapGet]
    | cons hd tl ih =>
      obtain ⟨k, v⟩ := hd
      by_cases hk : k = url
      · subst hk
        rw [mapGet, if_pos rfl] at h
        simp at h
      · rw [mapGet, if_neg hk] at h
        rw [List.cons_append, mapGet, if_neg hk]
        exact ih h

/-- Helper: filtering keeps a `mapGet` hit whose entry passes the
predicate, as long as it passes. -/
theorem mapGet_filter_of_pass (cache : DetectionCache) (url : String)
    (entry : CacheEntry) (q : String × CacheEntry → Bool)
    (h : mapGet cache url = some entry) (hq : q (url, entry) = true) :
    mapGet (cache.filter q) url = some entry := by
  induction cache with
  | nil => cases h
  | cons hd tl ih =>
    obtain ⟨k, v⟩ := hd
    by_cases hk : k = url
    · subst hk
      rw [mapGet, if_pos rfl] at h
      cases h
      rw [List.filter_cons, if_pos hq, mapGet, if_pos rfl]
    · rw [mapGet, if_neg hk] at h
      rw [List.filter_cons]
      by_cases hqk : q (k, v) = true
      · rw [if_pos hqk, mapGet, if_neg hk]
        exact ih h
      · rw [if_neg hqk]
        exact ih h

/-- Helper: pruning by `cleanupCache` keeps an entry that is not over-age
when the age-filtered cache is within the 50-entry limit. -/
theorem mapGet_cleanupCache (cache : DetectionCache) (url : String) (entry : CacheEntry)
    (now maxAge : ℤ)
    (hage : (!decide (now - entry.timestamp > maxAge)) = true)
    (hlen : (cache.filter fun p => !decide (now - p.2.timestamp > maxAge)).length ≤ 50)
    (h : mapGet cache url = some entry) :
    mapGet (cleanupCache cache now maxAge) url = some entry := by
  unfold cleanupCache
  rw [if_neg (by omega :
    ¬(50 < (cache.filter fun p => !decide (now - p.2.timestamp > maxAge)).length))]
  exact mapGet_filter_of_pass cache url entry
    (fun p => !decide (now - p.2.timestamp > maxAge)) h hage

/-- Helper: `mapSet` grows the cache by at most one entry. -/
theorem length_mapSet_le (cache : DetectionCache) (url : String) (entry : CacheEntry) :
    (mapSet cache url entry).length ≤ cache.length + 1 := by
  unfold mapSet
  split_ifs
  · rw [List.length_map]
    omega
  · rw [List.length_append]
    simp

/-- C8: when the cache has no fresh entry for the URL, a first
`detectCurrentPage` call runs the scan and caches its snapshot; a second
call within the cache TTL, with nothing changed in between, returns the
very same snapshot (hence the same page type and element set) from the
cache — the flag is `false` and the result does not depend on what a new
scan would produce — and leaves the cache untouched. -/
theorem detection_cache_idempotent (cache : DetectionCache)
    (url pathname title : String) (now1 now2 cacheTimeout : ℤ) (result : Detection)
    (hmiss : getCachedDetection cache url now1 cacheTimeout = none)
    (hts : now1 ≤ now2) (httl : now2 - now1 < cacheTimeout)
    (hsize : cache.length < 50) :
    ∃ cache1 : DetectionCache,
      detectCurrentPage cache url pathname title now1 cacheTimeout (.ok result) =
        .ok (result, cache1, true) ∧
      ∀ performDetection2 : Except String Detection,
        detectCurrentPage cache1 url pathname title now2 cacheTimeout
            performDetection2 = .ok (result, cache1, false) := by
  have h0tto : 0 < cacheTimeout := by omega
  refine ⟨cacheDetection cache url now1 cacheTimeout result, ?_, ?_⟩
  · simp only [detectCurrentPage, hmiss]
  · intro performDetection2
    have hget : mapGet (cacheDetection cache url now1 cacheTimeout result) url =
        some ⟨result, now1⟩ := by
      unfold cacheDetection
      have hlen : ((mapSet cache url ⟨result, now1⟩).filter
          (fun p => !decide (now1 - p.2.timestamp > cacheTimeout))).length ≤ 50 := by
        have h1 := List.length_filter_le
          (fun p : String × CacheEntry => !decide (now1 - p.2.timestamp > cacheTimeout))
          (mapSet cache url ⟨result, now1⟩)
        have h2 := length_mapSet_le cache url ⟨result, now1⟩
        omega
      refine mapGet_cleanupCache _ url ⟨result, now1⟩ now1 cacheTimeout ?_ hlen
        (mapGet_mapSet_self cache url ⟨result, now1⟩)
      simp
      omega
    have hcached : getCachedDetection (cacheDetection cache url now1 cacheTimeout result)
        url now2 cacheTimeout = some result := by
      rw [getCachedDetection, hget]
      simp only
      rw [if_pos (by omega)]
    simp only [detectCurrentPage, hcached]

/-- Witness for `detection_cache_idempotent`: an empty cache, a homepage
snapshot cached at t=0 and re-requested at t=1 with a 30 s TTL. -/
theorem detection_cache_idempotent_witness :
    getCachedDetection [] "https://www.speedwaymotors.com/" 0 30000 = none ∧
    ∃ cache1 : DetectionCache,
      detectCurrentPage [] "https://www.speedwaymotors.com/" "/" "Speedway Motors" 0 30000
          (.ok ⟨"https://www.speedwaymotors.com/", "/", "homepage", 9/10, none,
            [("searchBar", ".search-input")], "Speedway Motors"⟩) =
        .ok (⟨"https://www.speedwaymotors.com/", "/", "homepage", 9/10, none,
          [("searchBar", ".search-input")], "Speedway Motors"⟩, cache1, true) ∧
      ∀ performDetection2 : Except String Detection,
        detectCurrentPage cache1 "https://www.speedwaymotors.com/" "/" "Speedway Motors" 1 30000
            performDetection2 =
          .ok (⟨"https://www.speedwaymotors.com/", "/", "homepage", 9/10, none,
            [("searchBar", ".search-input")], "Speedway Motors"⟩, cache1, false) :=
  ⟨rfl,
   detection_cache_idempotent [] "https://www.speedwaymotors.com/" "/" "Speedway Motors"
     0 1 30000 _ rfl (by norm_num) (by norm_num) (by norm_num)⟩

/-- Helper: evaluating `calculateDistance` at a point pair whose squared
distance is a perfect square. -/
theorem calculateDistance_eval (p q : Point) (d : ℝ) (hd : 0 ≤ d)
    (h : (q.x - p.x) * (q.x - p.x) + (q.y - p.y) * (q.y - p.y) = d ^ 2) :
    calculateDistance p q = d := by
  show Real.sqrt ((q.x - p.x) * (q.x - p.x) + (q.y - p.y) * (q.y - p.y)) = d
  rw [h]
  exact Real.sqrt_sq hd

/-- C6: `shouldOvershoot` triggers only when the draw is below
`min(0.3, overshootChance × min(2.0, distance/200))`: the trigger chance
scales with distance exactly as claimed, and an overshoot can only happen
on a draw below 0.3, for every profile and every distance. -/
theorem shouldOvershoot_capped (profile : MovementProfile)
    (currentPosition target : Point) (r : ℝ)
    (h : shouldOvershoot profile currentPosition target r) :
    r < 0.3 ∧
    min 0.3 (profile.overshootChance *
      min 2.0 (calculateDistance currentPosition target / 200)) ≤ 0.3 := by
  unfold shouldOvershoot at h
  exact ⟨lt_of_lt_of_le h (min_le_left _ _), min_le_left _ _⟩

/-- Witness for `shouldOvershoot_capped`: the `quick` profile moving from
the origin to (300, 400) — distance 500 px — with draw 0. -/
theorem shouldOvershoot_capped_witness :
    shouldOvershoot quickProfile ⟨0, 0⟩ ⟨300, 400⟩ 0 ∧
    ((0 : ℝ) < 0.3 ∧
      min 0.3 (quickProfile.overshootChance *
        min 2.0 (calculateDistance ⟨0, 0⟩ ⟨300, 400⟩ / 200)) ≤ 0.3) := by
  have hdist : calculateDistance ⟨0, 0⟩ ⟨300, 400⟩ = 500 :=
    calculateDistance_eval ⟨0, 0⟩ ⟨300, 400⟩ 500 (by norm_num) (by norm_num)
  have h : shouldOvershoot quickProfile ⟨0, 0⟩ ⟨300, 400⟩ 0 := by
    show (0 : ℝ) < min 0.3 (quickProfile.overshootChance *
      min 2.0 (calculateDistance ⟨0, 0⟩ ⟨300, 400⟩ / 200))
    rw [hdist, show quickProfile.overshootChance = 0.25 from rfl,
      show min (2.0 : ℝ) (500 / 200) = 2.0 from min_eq_left (by norm_num),
      show min (0.3 : ℝ) (0.25 * 2.0) = 0.3 from min_eq_left (by norm_num)]
    norm_num
  exact ⟨h, (shouldOvershoot_capped quickProfile ⟨0, 0⟩ ⟨300, 400⟩ 0 h).imp_right id⟩

/-- Helper: below 20 px the dispatcher picks the straight path. -/
theorem movementPath_eq_straight (curvature tremor : ℝ) (rand : Nat → ℝ)
    (start stop : Point) (h : calculateDistance start stop < 20) :
    generateMovementPath curvature tremor rand start stop =
      generateStraightPath tremor rand start stop := by
  unfold generateMovementPath
  rw [if_pos h]

/-- Helper: above 200 px the dispatcher picks the cubic (complex) path. -/
theorem movementPath_eq_complex (curvature tremor : ℝ) (rand : Nat → ℝ)
    (start stop : Point) (h : 200 < calculateDistance start stop) :
    generateMovementPath curvature tremor rand start stop =
      generateComplexPath curvature tremor rand start stop := by
  unfold generateMovementPath
  rw [if_neg (by linarith), if_pos h]

/-- Helper: in `[20, 200]` the dispatcher picks the quadratic (curved)
path. -/
theorem movementPath_eq_curved (curvature tremor : ℝ) (rand : Nat → ℝ)
    (start stop : Point) (h1 : 20 ≤ calculateDistance start stop)
    (h2 : calculateDistance start stop ≤ 200) :
    generateMovementPath curvature tremor rand start stop =
      generateCurvedPath curvature tremor rand start stop := by
  unfold generateMovementPath
  rw [if_neg (by linarith), if_neg (by linarith)]

/-- C4: the path shape of `generateMovementPath` is chosen by the
start-to-end distance exactly as claimed — strictly below 20 px a straight
line, strictly above 200 px a two-control-point cubic Bezier
(`generateComplexPath`), and everything in `[20, 200]` a
single-control-point quadratic Bezier (`generateCurvedPath`). -/
theorem generateMovementPath_shape (curvature tremor : ℝ) (rand : Nat → ℝ)
    (start stop : Point) :
    (calculateDistance start stop < 20 →
      generateMovementPath curvature tremor rand start stop =
        generateStraightPath tremor rand start stop) ∧
    (200 < calculateDistance start stop →
      generateMovementPath curvature tremor rand start stop =
        generateComplexPath curvature tremor rand start stop) ∧
    (20 ≤ calculateDistance start stop → calculateDistance start stop ≤ 200 →
      generateMovementPath curvature tremor rand start stop =
        generateCurvedPath curvature tremor rand start stop) :=
  ⟨movementPath_eq_straight curvature tremor rand start stop,
   movementPath_eq_complex curvature tremor rand start stop,
   movementPath_eq_curved curvature tremor rand start stop⟩

/-- Witness for `generateMovementPath_shape`: distances 5 px (straight),
500 px (cubic) and 50 px (quadratic), with the casual profile's curvature
and tremor. -/
theorem generateMovementPath_shape_witness :
    calculateDistance ⟨0, 0⟩ ⟨3, 4⟩ < 20 ∧
    (generateMovementPath 0.25 0.05 (fun _ => 0) ⟨0, 0⟩ ⟨3, 4⟩ =
      generateStraightPath 0.05 (fun _ => 0) ⟨0, 0⟩ ⟨3, 4⟩) ∧
    (generateMovementPath 0.25 0.05 (fun _ => 0) ⟨0, 0⟩ ⟨300, 400⟩ =
      generateComplexPath 0.25 0.05 (fun _ => 0) ⟨0, 0⟩ ⟨300, 400⟩) ∧
    (generateMovementPath 0.25 0.05 (fun _ => 0) ⟨0, 0⟩ ⟨30, 40⟩ =
      generateCurvedPath 0.25 0.05 (fun _ => 0) ⟨0, 0⟩ ⟨30, 40⟩) := by
  have h5 : calculateDistance ⟨0, 0⟩ ⟨3, 4⟩ = 5 :=
    calculateDistance_eval _ _ 5 (by norm_num) (by norm_num)
  have h500 : calculateDistance ⟨0, 0⟩ ⟨300, 400⟩ = 500 :=
    calculateDistance_eval _ _ 500 (by norm_num) (by norm_num)
  have h50 : calculateDistance ⟨0, 0⟩ ⟨30, 40⟩ = 50 :=
    calculateDistance_eval _ _ 50 (by norm_num) (by norm_num)
  refine ⟨by rw [h5]; norm_num, ?_, ?_, ?_⟩
  · exact (generateMovementPath_shape 0.25 0.05 (fun _ => 0) ⟨0, 0⟩ ⟨3, 4⟩).1
      (by rw [h5]; norm_num)
  · exact (generateMovementPath_shape 0.25 0.05 (fun _ => 0) ⟨0, 0⟩ ⟨300, 400⟩).2.1
      (by rw [h500]; norm_num)
  · exact (generateMovementPath_shape 0.25 0.05 (fun _ => 0) ⟨0, 0⟩ ⟨30, 40⟩).2.2
      (by rw [h50]; norm_num) (by rw [h50]; norm_num)

/-- Helper: the last point of a path sampled over `List.range (n + 1)`. -/
theorem getLast?_range_map {α : Type} (f : Nat → α) (n : Nat) :
    ((List.range (n + 1)).map f).getLast? = some (f n) := by
  rw [List.range_succ, List.map_append, List.map_singleton, List.getLast?_concat]

/-- Helper: the first point of a path sampled over `List.range (n + 1)`. -/
theorem head?_range_map {α : Type} (f : Nat → α) (n : Nat) :
    ((List.range (n + 1)).map f).head? = some (f 0) := by
  rw [List.range_succ_eq_map]
  rfl

/-- C5 counterexample: moving from (0,0) to (10,0) — both inside any usual
viewport — with the casual profile (tremor 0.05) and all draws 0, the
generated path's final point is (9.75, −0.25), not the target (10, 0):
`generateStraightPath` passes the endpoint through `addTremor` too, so the
path does not end exactly at the target coordinate. -/
theorem movementPath_last_not_target :
    (generateMovementPath casualProfile.curvature casualProfile.tremor (fun _ => 0)
      ⟨0, 0⟩ ⟨10, 0⟩).getLast? = some ⟨9.75, -0.25⟩ ∧
    (Point.mk 9.75 (-0.25)).x ≠ (Point.mk 10 0).x := by
  have hdist : calculateDistance ⟨0, 0⟩ ⟨10, 0⟩ = 10 :=
    calculateDistance_eval _ _ 10 (by norm_num) (by norm_num)
  constructor
  · rw [movementPath_eq_straight casualProfile.curvature casualProfile.tremor
      (fun _ => 0) ⟨0, 0⟩ ⟨10, 0⟩ (by rw [hdist]; norm_num)]
    unfold generateStraightPath
    rw [hdist]
    have hfloor : ⌊(10 : ℝ) / 15⌋₊ = 0 := Nat.floor_eq_zero.2 (by norm_num)
    rw [hfloor]
    have hmax : max 3 0 = 3 := rfl
    rw [hmax, getLast?_range_map]
    unfold addTremor linearPoint casualProfile
    norm_num [Point.mk.injEq]
  · intro h
    norm_num at h

/-- Helper: a sample index over `steps` gives an interpolation parameter in
`[0, 1]`. -/
theorem ratio_unit (i n : ℕ) (hn : 0 < n) (hi : i ≤ n) :
    0 ≤ (i : ℝ) / (n : ℝ) ∧ (i : ℝ) / (n : ℝ) ≤ 1 := by
  constructor
  · positivity
  · rw [div_le_one (by exact_mod_cast hn)]
    exact_mod_cast hi

/-- Helper: linear interpolation stays between bounds of its endpoints. -/
theorem convex_lerp (lo hi a b t : ℝ) (ha : lo ≤ a) (ha' : a ≤ hi) (hb : lo ≤ b)
    (hb' : b ≤ hi) (ht : 0 ≤ t) (ht' : t ≤ 1) :
    lo ≤ a + (b - a) * t ∧ a + (b - a) * t ≤ hi := by
  constructor <;> nlinarith

/-- Helper: a quadratic Bernstein combination stays between bounds of its
three coefficients. -/
theorem convex_quad (lo hi a b c t : ℝ) (ha : lo ≤ a) (ha' : a ≤ hi) (hb : lo ≤ b)
    (hb' : b ≤ hi) (hc : lo ≤ c) (hc' : c ≤ hi) (ht : 0 ≤ t) (ht' : t ≤ 1) :
    lo ≤ (1 - t) ^ 2 * a + 2 * (1 - t) * t * b + t ^ 2 * c ∧
    (1 - t) ^ 2 * a + 2 * (1 - t) * t * b + t ^ 2 * c ≤ hi := by
  have hu : 0 ≤ 1 - t := by linarith
  have h1 : 0 ≤ (1 - t) ^ 2 * (a - lo) := mul_nonneg (sq_nonneg _) (by linarith)
  have h2 : 0 ≤ 2 * ((1 - t) * t) * (b - lo) :=
    mul_nonneg (by nlinarith [mul_nonneg hu ht]) (by linarith)
  have h3 : 0 ≤ t ^ 2 * (c - lo) := mul_nonneg (sq_nonneg _) (by linarith)
  have h4 : 0 ≤ (1 - t) ^ 2 * (hi - a) := mul_nonneg (sq_nonneg _) (by linarith)
  have h5 : 0 ≤ 2 * ((1 - t) * t) * (hi - b) :=
    mul_nonneg (by nlinarith [mul_nonneg hu ht]) (by linarith)
  have h6 : 0 ≤ t ^ 2 * (hi - c) := mul_nonneg (sq_nonneg _) (by linarith)
  constructor <;> nlinarith

/-- Helper: a cubic Bernstein combination stays between bounds of its four
coefficients. -/
theorem convex_cubic (lo hi a b c d t : ℝ) (ha : lo ≤ a) (ha' : a ≤ hi) (hb : lo ≤ b)
    (hb' : b ≤ hi) (hc : lo ≤ c) (hc' : c ≤ hi) (hd : lo ≤ d) (hd' : d ≤ hi)
    (ht : 0 ≤ t) (ht' : t ≤ 1) :
    lo ≤ (1 - t) ^ 3 * a + 3 * (1 - t) ^ 2 * t * b + 3 * (1 - t) * t ^ 2 * c + t ^ 3 * d ∧
    (1 - t) ^ 3 * a + 3 * (1 - t) ^ 2 * t * b + 3 * (1 - t) * t ^ 2 * c + t ^ 3 * d ≤ hi := by
  have hu : 0 ≤ 1 - t := by linarith
  have hu3 : 0 ≤ (1 - t) ^ 3 := pow_nonneg hu 3
  have hu2t : 0 ≤ 3 * ((1 - t) ^ 2 * t) := by positivity
  have hut2 : 0 ≤ 3 * ((1 - t) * t ^ 2) := by
    have := mul_nonneg hu (sq_nonneg t)
    linarith
  have ht3 : 0 ≤ t ^ 3 := pow_nonneg ht 3
  have h1 : 0 ≤ (1 - t) ^ 3 * (a - lo) := mul_nonneg hu3 (by linarith)
  have h2 : 0 ≤ 3 * ((1 - t) ^ 2 * t) * (b - lo) := mul_nonneg hu2t (by linarith)
  have h3 : 0 ≤ 3 * ((1 - t) * t ^ 2) * (c - lo) := mul_nonneg hut2 (by linarith)
  have h4 : 0 ≤ t ^ 3 * (d - lo) := mul_nonneg ht3 (by linarith)
  have h5 : 0 ≤ (1 - t) ^ 3 * (hi - a) := mul_nonneg hu3 (by linarith)
  have h6 : 0 ≤ 3 * ((1 - t) ^ 2 * t) * (hi - b) := mul_nonneg hu2t (by linarith)
  have h7 : 0 ≤ 3 * ((1 - t) * t ^ 2) * (hi - c) := mul_nonneg hut2 (by linarith)
  have h8 : 0 ≤ t ^ 3 * (hi - d) := mul_nonneg ht3 (by linarith)
  constructor <;> nlinarith

/-- Helper: `addTremor` moves each coordinate by at most `5 × tremor` when
the draws are in `[0, 1)`. -/
theorem addTremor_close (tremor r1 r2 : ℝ) (p : Point) (htr : 0 ≤ tremor)
    (h1 : 0 ≤ r1) (h1' : r1 < 1) (h2 : 0 ≤ r2) (h2' : r2 < 1) :
    p.x - 5 * tremor ≤ (addTremor tremor r1 r2 p).x ∧
    (addTremor tremor r1 r2 p).x ≤ p.x + 5 * tremor ∧
    p.y - 5 * tremor ≤ (addTremor tremor r1 r2 p).y ∧
    (addTremor tremor r1 r2 p).y ≤ p.y + 5 * tremor := by
  have k1 : 0 ≤ tremor * r1 := mul_nonneg htr h1
  have k2 : 0 ≤ tremor * r2 := mul_nonneg htr h2
  have k3 : 0 ≤ tremor * (1 - r1) := mul_nonneg htr (by linarith)
  have k4 : 0 ≤ tremor * (1 - r2) := mul_nonneg htr (by linarith)
  refine ⟨?_, ?_, ?_, ?_⟩ <;>
    · show _ ≤ _
      unfold addTremor
      simp only
      nlinarith

/-- Helper: the normalised perpendicular component has absolute value at
most 1 (it is `a / √(a² + b²)`, or 0 when the length vanishes). -/
theorem normPerp_abs_le_one (a b : ℝ) :
    |(if Real.sqrt (a * a + b * b) > 0 then a / Real.sqrt (a * a + b * b) else 0)| ≤ 1 := by
  by_cases h : Real.sqrt (a * a + b * b) > 0
  · rw [if_pos h, abs_div, abs_of_pos h, div_le_one h]
    calc |a| = Real.sqrt (a * a) := (Real.sqrt_mul_self_eq_abs a).symm
    _ ≤ Real.sqrt (a * a + b * b) := Real.sqrt_le_sqrt (by nlinarith [mul_self_nonneg b])
  · rw [if_neg h]
    simp

/-- Helper: the random control-point offset `distance × curvature ×
(0.5 + r/2) × (±1)` is bounded by `distance × curvature`. -/
theorem finalOffset_abs_le (d curvature r1 r2 : ℝ) (hd : 0 ≤ d) (hcv : 0 ≤ curvature)
    (h1 : 0 ≤ r1) (h1' : r1 < 1) :
    |d * curvature * (0.5 + r1 * 0.5) * (if r2 < 0.5 then (1 : ℝ) else -1)| ≤
      d * curvature := by
  have hdc : 0 ≤ d * curvature := mul_nonneg hd hcv
  have hfac : 0 ≤ (0.5 : ℝ) + r1 * 0.5 := by nlinarith
  have hfac' : (0.5 : ℝ) + r1 * 0.5 ≤ 1 := by nlinarith
  have hval : 0 ≤ d * curvature * (0.5 + r1 * 0.5) := mul_nonneg hdc hfac
  have hval' : d * curvature * (0.5 + r1 * 0.5) ≤ d * curvature :=
    mul_le_of_le_one_right hdc hfac'
  by_cases h : r2 < 0.5
  · rw [if_pos h, mul_one, abs_of_nonneg hval]
    exact hval'
  · rw [if_neg h]
    rw [show d * curvature * (0.5 + r1 * 0.5) * (-1 : ℝ) =
      -(d * curvature * (0.5 + r1 * 0.5)) by ring]
    rw [abs_neg, abs_of_nonneg hval]
    exact hval'

/-- Helper: lower bound for a midpoint shifted by a bounded offset. -/
theorem offset_lower (lo mid npx off bnd : ℝ) (hmid : lo ≤ mid) (hnpx : |npx| ≤ 1)
    (hoff : |off| ≤ bnd) : lo - bnd ≤ mid + npx * off := by
  have h : |npx * off| ≤ bnd := by
    rw [abs_mul]
    calc |npx| * |off| ≤ 1 * bnd :=
      mul_le_mul hnpx hoff (abs_nonneg _) (by norm_num)
    _ = bnd := one_mul bnd
  have h2 := abs_le.1 h
  linarith [h2.1]

/-- Helper: upper bound for a midpoint shifted by a bounded offset. -/
theorem offset_upper (hi mid npx off bnd : ℝ) (hmid : mid ≤ hi) (hnpx : |npx| ≤ 1)
    (hoff : |off| ≤ bnd) : mid + npx * off ≤ hi + bnd := by
  have h : |npx * off| ≤ bnd := by
    rw [abs_mul]
    calc |npx| * |off| ≤ 1 * bnd :=
      mul_le_mul hnpx hoff (abs_nonneg _) (by norm_num)
    _ = bnd := one_mul bnd
  have h2 := abs_le.1 h
  linarith [h2.2]

/-- Helper: companion to `normPerp_abs_le_one` for the second component. -/
theorem normPerp_abs_le_one' (a b : ℝ) :
    |(if Real.sqrt (a * a + b * b) > 0 then b / Real.sqrt (a * a + b * b) else 0)| ≤ 1 := by
  by_cases h : Real.sqrt (a * a + b * b) > 0
  · rw [if_pos h, abs_div, abs_of_pos h, div_le_one h]
    calc |b| = Real.sqrt (b * b) := (Real.sqrt_mul_self_eq_abs b).symm
    _ ≤ Real.sqrt (a * a + b * b) := Real.sqrt_le_sqrt (by nlinarith [mul_self_nonneg a])
  · rw [if_neg h]
    simp

/-- Helper: the x-coordinate of `generateControlPoint`, spelt out. -/
theorem controlPoint_x_eq (curvature r1 r2 : ℝ) (start stop : Point) (position : ℝ) :
    (generateControlPoint curvature r1 r2 start stop position).x =
      (start.x + (stop.x - start.x) * position) +
      (if Real.sqrt (-(stop.y - start.y) * -(stop.y - start.y) +
          (stop.x - start.x) * (stop.x - start.x)) > 0 then
        -(stop.y - start.y) / Real.sqrt (-(stop.y - start.y) * -(stop.y - start.y) +
          (stop.x - start.x) * (stop.x - start.x)) else 0) *
      (calculateDistance start stop * curvature * (0.5 + r1 * 0.5) *
        (if r2 < 0.5 then (1 : ℝ) else -1)) := rfl

/-- Helper: the y-coordinate of `generateControlPoint`, spelt out. -/
theorem controlPoint_y_eq (curvature r1 r2 : ℝ) (start stop : Point) (position : ℝ) :
    (generateControlPoint curvature r1 r2 start stop position).y =
      (start.y + (stop.y - start.y) * position) +
      (if Real.sqrt (-(stop.y - start.y) * -(stop.y - start.y) +
          (stop.x - start.x) * (stop.x - start.x)) > 0 then
        (stop.x - start.x) / Real.sqrt (-(stop.y - start.y) * -(stop.y - start.y) +
          (stop.x - start.x) * (stop.x - start.x)) else 0) *
      (calculateDistance start stop * curvature * (0.5 + r1 * 0.5) *
        (if r2 < 0.5 then (1 : ℝ) else -1)) := rfl

/-- Helper: the random control point lies within the start/stop bounding
box expanded by `distance × curvature` on each axis. -/
theorem generateControlPoint_bound (curvature r1 r2 : ℝ) (start stop : Point)
    (position : ℝ) (hcv : 0 ≤ curvature) (h1 : 0 ≤ r1) (h1' : r1 < 1)
    (hp : 0 ≤ position) (hp' : position ≤ 1) :
    min start.x stop.x - calculateDistance start stop * curvature ≤
      (generateControlPoint curvature r1 r2 start stop position).x ∧
    (generateControlPoint curvature r1 r2 start stop position).x ≤
      max start.x stop.x + calculateDistance start stop * curvature ∧
    min start.y stop.y - calculateDistance start stop * curvature ≤
      (generateControlPoint curvature r1 r2 start stop position).y ∧
    (generateControlPoint curvature r1 r2 start stop position).y ≤
      max start.y stop.y + calculateDistance start stop * curvature := by
  have hd : 0 ≤ calculateDistance start stop := Real.sqrt_nonneg _
  have hmidx := convex_lerp (min start.x stop.x) (max start.x stop.x) start.x stop.x
    position (min_le_left _ _) (le_max_left _ _) (min_le_right _ _) (le_max_right _ _) hp hp'
  have hmidy := convex_lerp (min start.y stop.y) (max start.y stop.y) start.y stop.y
    position (min_le_left _ _) (le_max_left _ _) (min_le_right _ _) (le_max_right _ _) hp hp'
  have hoff := finalOffset_abs_le (calculateDistance start stop) curvature r1 r2 hd hcv h1 h1'
  have hnx := normPerp_abs_le_one (-(stop.y - start.y)) (stop.x - start.x)
  have hny := normPerp_abs_le_one' (-(stop.y - start.y)) (stop.x - start.x)
  rw [controlPoint_x_eq, controlPoint_y_eq]
  exact ⟨offset_lower _ _ _ _ _ hmidx.1 hnx hoff,
         offset_upper _ _ _ _ _ hmidx.2 hnx hoff,
         offset_lower _ _ _ _ _ hmidy.1 hny hoff,
         offset_upper _ _ _ _ _ hmidy.2 hny hoff⟩

/-- Helper: bounds for a sampled-and-tremored curve: every point stays in
the base curve's bounding box expanded by `5 × tremor`, and the first/last
points are within `5 × tremor` of the curve's endpoints. -/
theorem tremorPath_bounds (tremor : ℝ) (rand : Nat → ℝ) (j1 j2 : ℕ → ℕ) (n : ℕ)
    (base : ℝ → Point) (lox hix loy hiy : ℝ) (hnpos : 0 < n)
    (hrand : ∀ k, 0 ≤ rand k ∧ rand k < 1) (htr : 0 ≤ tremor)
    (hbase : ∀ t, 0 ≤ t → t ≤ 1 →
      lox ≤ (base t).x ∧ (base t).x ≤ hix ∧ loy ≤ (base t).y ∧ (base t).y ≤ hiy) :
    (∀ p ∈ (List.range (n + 1)).map
        (fun i => addTremor tremor (rand (j1 i)) (rand (j2 i)) (base ((i : ℝ) / (n : ℝ)))),
      lox - 5 * tremor ≤ p.x ∧ p.x ≤ hix + 5 * tremor ∧
      loy - 5 * tremor ≤ p.y ∧ p.y ≤ hiy + 5 * tremor) ∧
    (∃ p0, ((List.range (n + 1)).map
        (fun i => addTremor tremor (rand (j1 i)) (rand (j2 i))
          (base ((i : ℝ) / (n : ℝ))))).head? = some p0 ∧
      (base 0).x - 5 * tremor ≤ p0.x ∧ p0.x ≤ (base 0).x + 5 * tremor ∧
      (base 0).y - 5 * tremor ≤ p0.y ∧ p0.y ≤ (base 0).y + 5 * tremor) ∧
    (∃ pn, ((List.range (n + 1)).map
        (fun i => addTremor tremor (rand (j1 i)) (rand (j2 i))
          (base ((i : ℝ) / (n : ℝ))))).getLast? = some pn ∧
      (base 1).x - 5 * tremor ≤ pn.x ∧ pn.x ≤ (base 1).x + 5 * tremor ∧
      (base 1).y - 5 * tremor ≤ pn.y ∧ pn.y ≤ (base 1).y + 5 * tremor) := by
  refine ⟨?_, ?_, ?_⟩
  · intro p hp
    rw [List.mem_map] at hp
    obtain ⟨i, hi, hpi⟩ := hp
    rw [List.mem_range] at hi
    have ht := ratio_unit i n hnpos (by omega)
    have hb := hbase _ ht.1 ht.2
    have hclose := addTremor_close tremor (rand (j1 i)) (rand (j2 i))
      (base ((i : ℝ) / (n : ℝ))) htr (hrand _).1 (hrand _).2 (hrand _).1 (hrand _).2
    rw [← hpi]
    exact ⟨by linarith [hclose.1, hb.1], by linarith [hclose.2.1, hb.2.1],
           by linarith [hclose.2.2.1, hb.2.2.1], by linarith [hclose.2.2.2, hb.2.2.2]⟩
  · refine ⟨_, head?_range_map _ n, ?_⟩
    have h0 : ((0 : ℕ) : ℝ) / (n : ℝ) = 0 := by norm_num
    rw [h0]
    have hclose := addTremor_close tremor (rand (j1 0)) (rand (j2 0)) (base 0)
      htr (hrand _).1 (hrand _).2 (hrand _).1 (hrand _).2
    exact hclose
  · refine ⟨_, getLast?_range_map _ n, ?_⟩
    have h1 : ((n : ℕ) : ℝ) / (n : ℝ) = 1 := div_self (by exact_mod_cast hnpos.ne')
    rw [h1]
    have hclose := addTremor_close tremor (rand (j1 n)) (rand (j2 n)) (base 1)
      htr (hrand _).1 (hrand _).2 (hrand _).1 (hrand _).2
    exact hclose

/-- Helper: bounds for `generateStraightPath`: every point in the segment's
bounding box expanded by `5 × tremor`; first point within `5 × tremor` of
the start, last point within `5 × tremor` of the target. -/
theorem generateStraightPath_bounds (tremor : ℝ) (rand : Nat → ℝ) (start stop : Point)
    (hrand : ∀ k, 0 ≤ rand k ∧ rand k < 1) (htr : 0 ≤ tremor) :
    (∀ p ∈ generateStraightPath tremor rand start stop,
      min start.x stop.x - 5 * tremor ≤ p.x ∧ p.x ≤ max start.x stop.x + 5 * tremor ∧
      min start.y stop.y - 5 * tremor ≤ p.y ∧ p.y ≤ max start.y stop.y + 5 * tremor) ∧
    (∃ p0, (generateStraightPath tremor rand start stop).head? = some p0 ∧
      start.x - 5 * tremor ≤ p0.x ∧ p0.x ≤ start.x + 5 * tremor ∧
      start.y - 5 * tremor ≤ p0.y ∧ p0.y ≤ start.y + 5 * tremor) ∧
    (∃ pn, (generateStraightPath tremor rand start stop).getLast? = some pn ∧
      stop.x - 5 * tremor ≤ pn.x ∧ pn.x ≤ stop.x + 5 * tremor ∧
      stop.y - 5 * tremor ≤ pn.y ∧ pn.y ≤ stop.y + 5 * tremor) := by
  have hnpos : 0 < max 3 ⌊calculateDistance start stop / 15⌋₊ :=
    lt_of_lt_of_le (by norm_num) (le_max_left _ _)
  have hbase : ∀ t : ℝ, 0 ≤ t → t ≤ 1 →
      min start.x stop.x ≤ (linearPoint start stop t).x ∧
      (linearPoint start stop t).x ≤ max start.x stop.x ∧
      min start.y stop.y ≤ (linearPoint start stop t).y ∧
      (linearPoint start stop t).y ≤ max start.y stop.y := by
    intro t ht ht'
    have hx := convex_lerp (min start.x stop.x) (max start.x stop.x) start.x stop.x t
      (min_le_left _ _) (le_max_left _ _) (min_le_right _ _) (le_max_right _ _) ht ht'
    have hy := convex_lerp (min start.y stop.y) (max start.y stop.y) start.y stop.y t
      (min_le_left _ _) (le_max_left _ _) (min_le_right _ _) (le_max_right _ _) ht ht'
    exact ⟨hx.1, hx.2, hy.1, hy.2⟩
  have main := tremorPath_bounds tremor rand (fun i => 2 * i) (fun i => 2 * i + 1)
    (max 3 ⌊calculateDistance start stop / 15⌋₊) (fun t => linearPoint start stop t)
    (min start.x stop.x) (max start.x stop.x) (min start.y stop.y) (max start.y stop.y)
    hnpos hrand htr hbase
  have e0x : (linearPoint start stop 0).x = start.x := by
    show start.x + (stop.x - start.x) * 0 = start.x
    ring
  have e0y : (linearPoint start stop 0).y = start.y := by
    show start.y + (stop.y - start.y) * 0 = start.y
    ring
  have e1x : (linearPoint start stop 1).x = stop.x := by
    show start.x + (stop.x - start.x) * 1 = stop.x
    ring
  have e1y : (linearPoint start stop 1).y = stop.y := by
    show start.y + (stop.y - start.y) * 1 = stop.y
    ring
  obtain ⟨hall, ⟨p0, hp0, hb0⟩, ⟨pn, hpn, hbn⟩⟩ := main
  refine ⟨hall, ⟨p0, hp0, ?_, ?_, ?_, ?_⟩, ⟨pn, hpn, ?_, ?_, ?_, ?_⟩⟩
  · rw [← e0x]; exact hb0.1
  · rw [← e0x]; exact hb0.2.1
  · rw [← e0y]; exact hb0.2.2.1
  · rw [← e0y]; exact hb0.2.2.2
  · rw [← e1x]; exact hbn.1
  · rw [← e1x]; exact hbn.2.1
  · rw [← e1y]; exact hbn.2.2.1
  · rw [← e1y]; exact hbn.2.2.2

/-- Helper: bounds for `generateCurvedPath`: every point in the segment's
bounding box expanded by `distance × curvature + 5 × tremor` (control-point
arc plus tremor); endpoints within `5 × tremor` of start/target. -/
theorem generateCurvedPath_bounds (curvature tremor : ℝ) (rand : Nat → ℝ)
    (start stop : Point) (hrand : ∀ k, 0 ≤ rand k ∧ rand k < 1)
    (htr : 0 ≤ tremor) (hcv : 0 ≤ curvature) :
    (∀ p ∈ generateCurvedPath curvature tremor rand start stop,
      min start.x stop.x - calculateDistance start stop * curvature - 5 * tremor ≤ p.x ∧
      p.x ≤ max start.x stop.x + calculateDistance start stop * curvature + 5 * tremor ∧
      min start.y stop.y - calculateDistance start stop * curvature - 5 * tremor ≤ p.y ∧
      p.y ≤ max start.y stop.y + calculateDistance start stop * curvature + 5 * tremor) ∧
    (∃ p0, (generateCurvedPath curvature tremor rand start stop).head? = some p0 ∧
      start.x - 5 * tremor ≤ p0.x ∧ p0.x ≤ start.x + 5 * tremor ∧
      start.y - 5 * tremor ≤ p0.y ∧ p0.y ≤ start.y + 5 * tremor) ∧
    (∃ pn, (generateCurvedPath curvature tremor rand start stop).getLast? = some pn ∧
      stop.x - 5 * tremor ≤ pn.x ∧ pn.x ≤ stop.x + 5 * tremor ∧
      stop.y - 5 * tremor ≤ pn.y ∧ pn.y ≤ stop.y + 5 * tremor) := by
  have hdc : 0 ≤ calculateDistance start stop * curvature :=
    mul_nonneg (Real.sqrt_nonneg _) hcv
  have hnpos : 0 < max 15 ⌊calculateDistance start stop / 12⌋₊ :=
    lt_of_lt_of_le (by norm_num) (le_max_left _ _)
  have hc := generateControlPoint_bound curvature (rand 0) (rand 1) start stop 0.5
    hcv (hrand 0).1 (hrand 0).2 (by norm_num) (by norm_num)
  have hbase : ∀ t : ℝ, 0 ≤ t → t ≤ 1 →
      min start.x stop.x - calculateDistance start stop * curvature ≤
        (quadraticBezier start (generateControlPoint curvature (rand 0) (rand 1) start stop 0.5)
          stop t).x ∧
      (quadraticBezier start (generateControlPoint curvature (rand 0) (rand 1) start stop 0.5)
          stop t).x ≤ max start.x stop.x + calculateDistance start stop * curvature ∧
      min start.y stop.y - calculateDistance start stop * curvature ≤
        (quadraticBezier start (generateControlPoint curvature (rand 0) (rand 1) start stop 0.5)
          stop t).y ∧
      (quadraticBezier start (generateControlPoint curvature (rand 0) (rand 1) start stop 0.5)
          stop t).y ≤ max start.y stop.y + calculateDistance start stop * curvature := by
    intro t ht ht'
    have hx := convex_quad (min start.x stop.x - calculateDistance start stop * curvature)
      (max start.x stop.x + calculateDistance start stop * curvature) start.x
      (generateControlPoint curvature (rand 0) (rand 1) start stop 0.5).x stop.x t
      (by linarith [min_le_left start.x stop.x]) (by linarith [le_max_left start.x stop.x])
      hc.1 hc.2.1
      (by linarith [min_le_right start.x stop.x]) (by linarith [le_max_right start.x stop.x])
      ht ht'
    have hy := convex_quad (min start.y stop.y - calculateDistance start stop * curvature)
      (max start.y stop.y + calculateDistance start stop * curvature) start.y
      (generateControlPoint curvature (rand 0) (rand 1) start stop 0.5).y stop.y t
      (by linarith [min_le_left start.y stop.y]) (by linarith [le_max_left start.y stop.y])
      hc.2.2.1 hc.2.2.2
      (by linarith [min_le_right start.y stop.y]) (by linarith [le_max_right start.y stop.y])
      ht ht'
    exact ⟨hx.1, hx.2, hy.1, hy.2⟩
  have main := tremorPath_bounds tremor rand (fun i => 2 * i + 2) (fun i => 2 * i + 3)
    (max 15 ⌊calculateDistance start stop / 12⌋₊)
    (fun t => quadraticBezier start
      (generateControlPoint curvature (rand 0) (rand 1) start stop 0.5) stop t)
    (min start.x stop.x - calculateDistance start stop * curvature)
    (max start.x stop.x + calculateDistance start stop * curvature)
    (min start.y stop.y - calculateDistance start stop * curvature)
    (max start.y stop.y + calculateDistance start stop * curvature)
    hnpos hrand htr hbase
  have e0x : (quadraticBezier start
      (generateControlPoint curvature (rand 0) (rand 1) start stop 0.5) stop 0).x =
      start.x := by
    show (1 - 0 : ℝ) ^ 2 * start.x + 2 * (1 - 0) * 0 *
      (generateControlPoint curvature (rand 0) (rand 1) start stop 0.5).x +
      (0 : ℝ) ^ 2 * stop.x = start.x
    ring
  have e0y : (quadraticBezier start
      (generateControlPoint curvature (rand 0) (rand 1) start stop 0.5) stop 0).y =
      start.y := by
    show (1 - 0 : ℝ) ^ 2 * start.y + 2 * (1 - 0) * 0 *
      (generateControlPoint curvature (rand 0) (rand 1) start stop 0.5).y +
      (0 : ℝ) ^ 2 * stop.y = start.y
    ring
  have e1x : (quadraticBezier start
      (generateControlPoint curvature (rand 0) (rand 1) start stop 0.5) stop 1).x =
      stop.x := by
    show (1 - 1 : ℝ) ^ 2 * start.x + 2 * (1 - 1) * 1 *
      (generateControlPoint curvature (rand 0) (rand 1) start stop 0.5).x +
      (1 : ℝ) ^ 2 * stop.x = stop.x
    ring
  have e1y : (quadraticBezier start
      (generateControlPoint curvature (rand 0) (rand 1) start stop 0.5) stop 1).y =
      stop.y := by
    show (1 - 1 : ℝ) ^ 2 * start.y + 2 * (1 - 1) * 1 *
      (generateControlPoint curvature (rand 0) (rand 1) start stop 0.5).y +
      (1 : ℝ) ^ 2 * stop.y = stop.y
    ring
  obtain ⟨hall, ⟨p0, hp0, hb0⟩, ⟨pn, hpn, hbn⟩⟩ := main
  refine ⟨?_, ⟨p0, hp0, ?_, ?_, ?_, ?_⟩, ⟨pn, hpn, ?_, ?_, ?_, ?_⟩⟩
  · intro p hp
    have := hall p hp
    exact ⟨by linarith [this.1], by linarith [this.2.1],
           by linarith [this.2.2.1], by linarith [this.2.2.2]⟩
  · rw [← e0x]; exact hb0.1
  · rw [← e0x]; exact hb0.2.1
  · rw [← e0y]; exact hb0.2.2.1
  · rw [← e0y]; exact hb0.2.2.2
  · rw [← e1x]; exact hbn.1
  · rw [← e1x]; exact hbn.2.1
  · rw [← e1y]; exact hbn.2.2.1
  · rw [← e1y]; exact hbn.2.2.2

/-- Helper: bounds for `generateComplexPath`: same expansion as the curved
path (both control points stay within `distance × curvature` of the
segment's box); endpoints within `5 × tremor` of start/target. -/
theorem generateComplexPath_bounds (curvature tremor : ℝ) (rand : Nat → ℝ)
    (start stop : Point) (hrand : ∀ k, 0 ≤ rand k ∧ rand k < 1)
    (htr : 0 ≤ tremor) (hcv : 0 ≤ curvature) :
    (∀ p ∈ generateComplexPath curvature tremor rand start stop,
      min start.x stop.x - calculateDistance start stop * curvature - 5 * tremor ≤ p.x ∧
      p.x ≤ max start.x stop.x + calculateDistance start stop * curvature + 5 * tremor ∧
      min start.y stop.y - calculateDistance start stop * curvature - 5 * tremor ≤ p.y ∧
      p.y ≤ max start.y stop.y + calculateDistance start stop * curvature + 5 * tremor) ∧
    (∃ p0, (generateComplexPath curvature tremor rand start stop).head? = some p0 ∧
      start.x - 5 * tremor ≤ p0.x ∧ p0.x ≤ start.x + 5 * tremor ∧
      start.y - 5 * tremor ≤ p0.y ∧ p0.y ≤ start.y + 5 * tremor) ∧
    (∃ pn, (generateComplexPath curvature tremor rand start stop).getLast? = some pn ∧
      stop.x - 5 * tremor ≤ pn.x ∧ pn.x ≤ stop.x + 5 * tremor ∧
      stop.y - 5 * tremor ≤ pn.y ∧ pn.y ≤ stop.y + 5 * tremor) := by
  have hdc : 0 ≤ calculateDistance start stop * curvature :=
    mul_nonneg (Real.sqrt_nonneg _) hcv
  have hnpos : 0 < max 20 ⌊calculateDistance start stop / 10⌋₊ :=
    lt_of_lt_of_le (by norm_num) (le_max_left _ _)
  have hc1 := generateControlPoint_bound curvature (rand 0) (rand 1) start stop 0.3
    hcv (hrand 0).1 (hrand 0).2 (by norm_num) (by norm_num)
  have hc2 := generateControlPoint_bound curvature (rand 2) (rand 3) start stop 0.7
    hcv (hrand 2).1 (hrand 2).2 (by norm_num) (by norm_num)
  have hbase : ∀ t : ℝ, 0 ≤ t → t ≤ 1 →
      min start.x stop.x - calculateDistance start stop * curvature ≤
        (cubicBezier start (generateControlPoint curvature (rand 0) (rand 1) start stop 0.3)
          (generateControlPoint curvature (rand 2) (rand 3) start stop 0.7) stop t).x ∧
      (cubicBezier start (generateControlPoint curvature (rand 0) (rand 1) start stop 0.3)
          (generateControlPoint curvature (rand 2) (rand 3) start stop 0.7) stop t).x ≤
        max start.x stop.x + calculateDistance start stop * curvature ∧
      min start.y stop.y - calculateDistance start stop * curvature ≤
        (cubicBezier start (generateControlPoint curvature (rand 0) (rand 1) start stop 0.3)
          (generateControlPoint curvature (rand 2) (rand 3) start stop 0.7) stop t).y ∧
      (cubicBezier start (generateControlPoint curvature (rand 0) (rand 1) start stop 0.3)
          (generateControlPoint curvature (rand 2) (rand 3) start stop 0.7) stop t).y ≤
        max start.y stop.y + calculateDistance start stop * curvature := by
    intro t ht ht'
    have hx := convex_cubic (min start.x stop.x - calculateDistance start stop * curvature)
      (max start.x stop.x + calculateDistance start stop * curvature) start.x
      (generateControlPoint curvature (rand 0) (rand 1) start stop 0.3).x
      (generateControlPoint curvature (rand 2) (rand 3) start stop 0.7).x stop.x t
      (by linarith [min_le_left start.x stop.x]) (by linarith [le_max_left start.x stop.x])
      hc1.1 hc1.2.1 hc2.1 hc2.2.1
      (by linarith [min_le_right start.x stop.x]) (by linarith [le_max_right start.x stop.x])
      ht ht'
    have hy := convex_cubic (min start.y stop.y - calculateDistance start stop * curvature)
      (max start.y stop.y + calculateDistance start stop * curvature) start.y
      (generateControlPoint curvature (rand 0) (rand 1) start stop 0.3).y
      (generateControlPoint curvature (rand 2) (rand 3) start stop 0.7).y stop.y t
      (by linarith [min_le_left start.y stop.y]) (by linarith [le_max_left start.y stop.y])
      hc1.2.2.1 hc1.2.2.2 hc2.2.2.1 hc2.2.2.2
      (by linarith [min_le_right start.y stop.y]) (by linarith [le_max_right start.y stop.y])
      ht ht'
    exact ⟨hx.1, hx.2, hy.1, hy.2⟩
  have main := tremorPath_bounds tremor rand (fun i => 2 * i + 4) (fun i => 2 * i + 5)
    (max 20 ⌊calculateDistance start stop / 10⌋₊)
    (fun t => cubicBezier start
      (generateControlPoint curvature (rand 0) (rand 1) start stop 0.3)
      (generateControlPoint curvature (rand 2) (rand 3) start stop 0.7) stop t)
    (min start.x stop.x - calculateDistance start stop * curvature)
    (max start.x stop.x + calculateDistance start stop * curvature)
    (min start.y stop.y - calculateDistance start stop * curvature)
    (max start.y stop.y + calculateDistance start stop * curvature)
    hnpos hrand htr hbase
  have e0x : (cubicBezier start
      (generateControlPoint curvature (rand 0) (rand 1) start stop 0.3)
      (generateControlPoint curvature (rand 2) (rand 3) start stop 0.7) stop 0).x =
      start.x := by
    show (1 - 0 : ℝ) ^ 3 * start.x + 3 * (1 - 0) ^ 2 * 0 *
        (generateControlPoint curvature (rand 0) (rand 1) start stop 0.3).x +
        3 * (1 - 0 : ℝ) * 0 ^ 2 *
        (generateControlPoint curvature (rand 2) (rand 3) start stop 0.7).x +
        (0 : ℝ) ^ 3 * stop.x = start.x
    ring
  have e0y : (cubicBezier start
      (generateControlPoint curvature (rand 0) (rand 1) start stop 0.3)
      (generateControlPoint curvature (rand 2) (rand 3) start stop 0.7) stop 0).y =
      start.y := by
    show (1 - 0 : ℝ) ^ 3 * start.y + 3 * (1 - 0) ^ 2 * 0 *
        (generateControlPoint curvature (rand 0) (rand 1) start stop 0.3).y +
        3 * (1 - 0 : ℝ) * 0 ^ 2 *
        (generateControlPoint curvature (rand 2) (rand 3) start stop 0.7).y +
        (0 : ℝ) ^ 3 * stop.y = start.y
    ring
  have e1x : (cubicBezier start
      (generateControlPoint curvature (rand 0) (rand 1) start stop 0.3)
      (generateControlPoint curvature (rand 2) (rand 3) start stop 0.7) stop 1).x =
      stop.x := by
    show (1 - 1 : ℝ) ^ 3 * start.x + 3 * (1 - 1) ^ 2 * 1 *
        (generateControlPoint curvature (rand 0) (rand 1) start stop 0.3).x +
        3 * (1 - 1 : ℝ) * 1 ^ 2 *
        (generateControlPoint curvature (rand 2) (rand 3) start stop 0.7).x +
        (1 : ℝ) ^ 3 * stop.x = stop.x
    ring
  have e1y : (cubicBezier start
      (generateControlPoint curvature (rand 0) (rand 1) start stop 0.3)
      (generateControlPoint curvature (rand 2) (rand 3) start stop 0.7) stop 1).y =
      stop.y := by
    show (1 - 1 : ℝ) ^ 3 * start.y + 3 * (1 - 1) ^ 2 * 1 *
        (generateControlPoint curvature (rand 0) (rand 1) start stop 0.3).y +
        3 * (1 - 1 : ℝ) * 1 ^ 2 *
        (generateControlPoint curvature (rand 2) (rand 3) start stop 0.7).y +
        (1 : ℝ) ^ 3 * stop.y = stop.y
    ring
  obtain ⟨hall, ⟨p0, hp0, hb0⟩, ⟨pn, hpn, hbn⟩⟩ := main
  refine ⟨?_, ⟨p0, hp0, ?_, ?_, ?_, ?_⟩, ⟨pn, hpn, ?_, ?_, ?_, ?_⟩⟩
  · intro p hp
    have := hall p hp
    exact ⟨by linarith [this.1], by linarith [this.2.1],
           by linarith [this.2.2.1], by linarith [this.2.2.2]⟩
  · rw [← e0x]; exact hb0.1
  · rw [← e0x]; exact hb0.2.1
  · rw [← e0y]; exact hb0.2.2.1
  · rw [← e0y]; exact hb0.2.2.2
  · rw [← e1x]; exact hbn.1
  · rw [← e1x]; exact hbn.2.1
  · rw [← e1y]; exact hbn.2.2.1
  · rw [← e1y]; exact hbn.2.2.2

/-- C5 (amended): for every start/end pair inside a `[0,W] × [0,H]`
viewport, every point of the generated movement path lies within the
viewport expanded by `distance × curvature + 5 × tremor` (the random
control-point arc plus the tremor jitter), the path begins within
`5 × tremor` per axis of the start point, and its final point is within
`5 × tremor` per axis of the target — near, not exactly at, the target,
since the endpoints are tremored too. -/
theorem movementPath_in_bounds (curvature tremor : ℝ) (rand : Nat → ℝ)
    (start stop : Point) (W H : ℝ)
    (hrand : ∀ k, 0 ≤ rand k ∧ rand k < 1) (htr : 0 ≤ tremor) (hcv : 0 ≤ curvature)
    (hsx : 0 ≤ start.x) (hsx' : start.x ≤ W) (hsy : 0 ≤ start.y) (hsy' : start.y ≤ H)
    (hex : 0 ≤ stop.x) (hex' : stop.x ≤ W) (hey : 0 ≤ stop.y) (hey' : stop.y ≤ H) :
    (∀ p ∈ generateMovementPath curvature tremor rand start stop,
      -(calculateDistance start stop * curvature + 5 * tremor) ≤ p.x ∧
      p.x ≤ W + (calculateDistance start stop * curvature + 5 * tremor) ∧
      -(calculateDistance start stop * curvature + 5 * tremor) ≤ p.y ∧
      p.y ≤ H + (calculateDistance start stop * curvature + 5 * tremor)) ∧
    (∃ p0, (generateMovementPath curvature tremor rand start stop).head? = some p0 ∧
      start.x - 5 * tremor ≤ p0.x ∧ p0.x ≤ start.x + 5 * tremor ∧
      start.y - 5 * tremor ≤ p0.y ∧ p0.y ≤ start.y + 5 * tremor) ∧
    (∃ pn, (generateMovementPath curvature tremor rand start stop).getLast? = some pn ∧
      stop.x - 5 * tremor ≤ pn.x ∧ pn.x ≤ stop.x + 5 * tremor ∧
      stop.y - 5 * tremor ≤ pn.y ∧ pn.y ≤ stop.y + 5 * tremor) := by
  have hdc : 0 ≤ calculateDistance start stop * curvature :=
    mul_nonneg (Real.sqrt_nonneg _) hcv
  have hminx : 0 ≤ min start.x stop.x := le_min hsx hex
  have hmaxx : max start.x stop.x ≤ W := max_le hsx' hex'
  have hminy : 0 ≤ min start.y stop.y := le_min hsy hey
  have hmaxy : max start.y stop.y ≤ H := max_le hsy' hey'
  by_cases h1 : calculateDistance start stop < 20
  · rw [movementPath_eq_straight curvature tremor rand start stop h1]
    obtain ⟨hall, h0, hn⟩ := generateStraightPath_bounds tremor rand start stop hrand htr
    refine ⟨?_, h0, hn⟩
    intro p hp
    have hb := hall p hp
    exact ⟨by linarith [hb.1], by linarith [hb.2.1],
           by linarith [hb.2.2.1], by linarith [hb.2.2.2]⟩
  · by_cases h2 : 200 < calculateDistance start stop
    · rw [movementPath_eq_complex curvature tremor rand start stop h2]
      obtain ⟨hall, h0, hn⟩ :=
        generateComplexPath_bounds curvature tremor rand start stop hrand htr hcv
      refine ⟨?_, h0, hn⟩
      intro p hp
      have hb := hall p hp
      exact ⟨by linarith [hb.1], by linarith [hb.2.1],
             by linarith [hb.2.2.1], by linarith [hb.2.2.2]⟩
    · rw [movementPath_eq_curved curvature tremor rand start stop
        (not_lt.1 h1) (not_lt.1 h2)]
      obtain ⟨hall, h0, hn⟩ :=
        generateCurvedPath_bounds curvature tremor rand start stop hrand htr hcv
      refine ⟨?_, h0, hn⟩
      intro p hp
      have hb := hall p hp
      exact ⟨by linarith [hb.1], by linarith [hb.2.1],
             by linarith [hb.2.2.1], by linarith [hb.2.2.2]⟩

/-- Witness for `movementPath_in_bounds`: moving from (0,0) to (3,4) inside
a 1024×768 viewport with the casual profile's curvature 0.25 and tremor
0.05, all draws 0. -/
theorem movementPath_in_bounds_witness :
    ((0 : ℝ) ≤ (Point.mk 0 0).x ∧ (Point.mk 3 4).x ≤ 1024) ∧
    ((∀ p ∈ generateMovementPath 0.25 0.05 (fun _ => 0) ⟨0, 0⟩ ⟨3, 4⟩,
      -(calculateDistance ⟨0, 0⟩ ⟨3, 4⟩ * 0.25 + 5 * 0.05) ≤ p.x ∧
      p.x ≤ 1024 + (calculateDistance ⟨0, 0⟩ ⟨3, 4⟩ * 0.25 + 5 * 0.05) ∧
      -(calculateDistance ⟨0, 0⟩ ⟨3, 4⟩ * 0.25 + 5 * 0.05) ≤ p.y ∧
      p.y ≤ 768 + (calculateDistance ⟨0, 0⟩ ⟨3, 4⟩ * 0.25 + 5 * 0.05)) ∧
    (∃ p0, (generateMovementPath 0.25 0.05 (fun _ => 0) ⟨0, 0⟩ ⟨3, 4⟩).head? = some p0 ∧
      (Point.mk (0:ℝ) 0).x - 5 * 0.05 ≤ p0.x ∧ p0.x ≤ (Point.mk (0:ℝ) 0).x + 5 * 0.05 ∧
      (Point.mk (0:ℝ) 0).y - 5 * 0.05 ≤ p0.y ∧ p0.y ≤ (Point.mk (0:ℝ) 0).y + 5 * 0.05) ∧
    (∃ pn, (generateMovementPath 0.25 0.05 (fun _ => 0) ⟨0, 0⟩ ⟨3, 4⟩).getLast? = some pn ∧
      (Point.mk (3:ℝ) 4).x - 5 * 0.05 ≤ pn.x ∧ pn.x ≤ (Point.mk (3:ℝ) 4).x + 5 * 0.05 ∧
      (Point.mk (3:ℝ) 4).y - 5 * 0.05 ≤ pn.y ∧ pn.y ≤ (Point.mk (3:ℝ) 4).y + 5 * 0.05)) :=
  ⟨⟨by norm_num, by norm_num⟩,
   movementPath_in_bounds 0.25 0.05 (fun _ => 0) ⟨0, 0⟩ ⟨3, 4⟩ 1024 768
     (fun _ => ⟨le_refl 0, by norm_num⟩) (by norm_num) (by norm_num)
     (by norm_num) (by norm_num) (by norm_num) (by norm_num)
     (by norm_num) (by norm_num) (by norm_num) (by norm_num)⟩

end Speedway
